import Mathlib

/-!
Verification of the water-filling allocation solver specified for this
repository.  The notebook `examples/notebooks/WWW/water_filling_BVex5.2.ipynb`
contains the `water_filling` wrapper (embedded below as `waterFillingReturn`,
`water_filling` and `water_filling_default`); the underlying convex solver it
calls lives elsewhere in the repository, so the numerical core is modelled
from the specification's own bisection algorithm (spec sections 4.1 and 6).
All numbers are exact rationals; the logarithmic objective is a real-valued
function defined separately so that the allocation computation stays
executable.
-/

namespace WaterFilling

/-- Modelled from the spec: the status values of a solver result
(spec section 6: one of `optimal`, `failed_to_converge`). -/
inductive Status where
  | optimal
  | failedToConverge
deriving DecidableEq

/-- Modelled from the spec: the error reported synchronously on precondition
violations (spec section 7: `InvalidInput`). -/
inductive SolverError where
  | invalidInput
deriving DecidableEq

/-- Modelled from the spec: the allocation at water level `mu`,
`x_i(mu) = max(0, mu - alpha_i)` (spec section 4.1, step 1). -/
def waterAlloc (mu : ℚ) (alpha : List ℚ) : List ℚ :=
  alpha.map (fun a => max 0 (mu - a))

/-- Modelled from the spec: `f(mu) = sum_i x_i(mu) - P`
(spec section 4.1, step 2). -/
def excess (alpha : List ℚ) (P mu : ℚ) : ℚ :=
  (waterAlloc mu alpha).sum - P

/-- Absolute value on `ℚ`, written as an explicit case split; equal to `|q|`
(`ratAbs_eq_abs` below). -/
def ratAbs (q : ℚ) : ℚ := if q < 0 then -q else q

/-- Minimum of the channel floors (`min(alpha)`); the empty list is rejected
by input validation before this is used. -/
def minFloor : List ℚ → ℚ
  | [] => 0
  | a :: rest => rest.foldl min a

/-- Maximum of the channel floors (`max(alpha)`). -/
def maxFloor : List ℚ → ℚ
  | [] => 0
  | a :: rest => rest.foldl max a

/-- Modelled from the spec: the solver's result record (spec section 6).
The intermediate water level `mu` (spec section 3) is kept in the record;
the real-valued achieved objective is the separate function `objective`. -/
structure Result where
  status : Status
  waterLevel : ℚ
  allocation : List ℚ
deriving DecidableEq

/-- Build a result at water level `mu`: the allocation is `x(mu)`. -/
def mkResult (s : Status) (alpha : List ℚ) (mu : ℚ) : Result :=
  ⟨s, mu, waterAlloc mu alpha⟩

/-- The better of two candidate water levels: the one whose `|f|` is
smaller (used to report the best achieved point on nonconvergence). -/
def nextBest (alpha : List ℚ) (P mid best : ℚ) : ℚ :=
  if ratAbs (excess alpha P mid) < ratAbs (excess alpha P best) then mid else best

/-- Modelled from the spec: the bisection loop on the water level
(spec section 4.1, step 3).  Each iteration evaluates the midpoint of the
current bracket; it stops with status `optimal` once `|f(mu)| <= tol`, and
when the fuel (iteration cap) runs out it returns status
`failed_to_converge` with the best achieved water level, i.e. the evaluated
point with the smallest `|f|` (spec section 4.1, edge cases). -/
def bisect (alpha : List ℚ) (P tol : ℚ) : ℕ → ℚ → ℚ → ℚ → Result
  | 0, _, _, best => mkResult .failedToConverge alpha best
  | fuel + 1, lo, hi, best =>
    if ratAbs (excess alpha P ((lo + hi) / 2)) ≤ tol then
      mkResult .optimal alpha ((lo + hi) / 2)
    else if excess alpha P ((lo + hi) / 2) < 0 then
      bisect alpha P tol fuel ((lo + hi) / 2) hi (nextBest alpha P ((lo + hi) / 2) best)
    else
      bisect alpha P tol fuel lo ((lo + hi) / 2) (nextBest alpha P ((lo + hi) / 2) best)

/-- Modelled from the spec: the default tolerance `1e-10` (spec section 6). -/
def defaultTolerance : ℚ := 1 / 10 ^ 10

/-- Modelled from the spec: the default iteration cap `100`
(spec section 6). -/
def defaultMaxIterations : ℕ := 100

/-- The spec's preconditions (spec section 4.1): a nonempty channel list,
strictly positive floors, and a non-negative budget. -/
def validInput (alpha : List ℚ) (P : ℚ) : Prop :=
  alpha ≠ [] ∧ (∀ a ∈ alpha, 0 < a) ∧ 0 ≤ P

instance validInput.decidable (alpha : List ℚ) (P : ℚ) :
    Decidable (validInput alpha P) := by
  unfold validInput; infer_instance

/-- Modelled from the spec: `solve(alpha, P)` (spec section 4.1).  Precondition
violations (empty channel set, a non-positive floor, a negative budget) fail
with `InvalidInput`.  `P = 0` is the spec's explicit edge case returning the
all-zero allocation with status `optimal`.  Otherwise the water level is
bisected over `[min(alpha), max(alpha) + P]`; the upper bracket endpoint is
tested against the stopping criterion before iterating (this realizes the
spec's `n = 1` boundary scenario, where `f(max(alpha) + P) = 0`, exactly). -/
def solve (alpha : List ℚ) (P : ℚ) (tol : ℚ) (maxIter : ℕ) :
    Except SolverError Result :=
  if alpha = [] ∨ (∃ a ∈ alpha, a ≤ 0) ∨ P < 0 then
    .error .invalidInput
  else if P = 0 then
    .ok (mkResult .optimal alpha (minFloor alpha))
  else if ratAbs (excess alpha P (maxFloor alpha + P)) ≤ tol then
    .ok (mkResult .optimal alpha (maxFloor alpha + P))
  else
    .ok (bisect alpha P tol maxIter (minFloor alpha) (maxFloor alpha + P)
      (maxFloor alpha + P))

/-- The achieved objective `sum_i log(alpha_i + x_i)` (spec section 4.1,
step 4), as a real number. -/
noncomputable def objective (alpha x : List ℚ) : ℝ :=
  ((alpha.zip x).map (fun p => Real.log ((p.1 : ℝ) + (p.2 : ℝ)))).sum

/-- Embedding of the notebook's return branch of `water_filling`
(`water_filling_BVex5.2.ipynb`, final lines of the function): if the solver
status is the string `optimal`, return the status together with the objective
value and the allocation; otherwise return the raw solver status with NaN in
both positions, discarding any partial allocation.  NaN is modelled as
`none`. -/
def waterFillingReturn {A B : Type} (status : String) (value : A) (x : B) :
    String × Option A × Option B :=
  if status = "optimal" then (status, some value, some x) else (status, none, none)

/-- Embedding of the notebook's `water_filling(n, a, sum_x)` with the
spec-modelled bisection solver as the backend (the notebook delegates solving
to an external convex solver; the spec frames the bisection algorithm as the
drop-in backend for this exact problem).  `n` is the declared dimension,
used by the notebook only to size the variable. -/
def water_filling (n : ℕ) (a : List ℚ) (sum_x : ℚ) :
    String × Option (List ℚ) :=
  match solve a sum_x defaultTolerance defaultMaxIterations with
  | .ok r =>
    if r.status = .optimal then ("optimal", some r.allocation)
    else ("failed_to_converge", none)
  | .error _ => ("invalid_input", none)

/-- Embedding of the notebook's default parameter value `sum_x=1`
(`def water_filling(n, a, sum_x=1)`): the call without an explicit budget. -/
def water_filling_default (n : ℕ) (a : List ℚ) : String × Option (List ℚ) :=
  water_filling n a 1

lemma ratAbs_eq_abs (q : ℚ) : ratAbs q = |q| := by
  unfold ratAbs
  split
  · exact (abs_of_neg (by assumption)).symm
  · exact (abs_of_nonneg (le_of_not_lt (by assumption))).symm

lemma waterAlloc_nonneg (mu : ℚ) (alpha : List ℚ) :
    ∀ x ∈ waterAlloc mu alpha, 0 ≤ x := by
  intro x hx
  rcases List.mem_map.1 hx with ⟨a, _, rfl⟩
  exact le_max_left _ _

lemma foldl_min_le (l : List ℚ) :
    ∀ acc : ℚ, l.foldl min acc ≤ acc ∧ ∀ a ∈ l, l.foldl min acc ≤ a := by
  induction l with
  | nil => intro acc; exact ⟨le_refl _, by simp⟩
  | cons b t ih =>
    intro acc
    refine ⟨le_trans (ih (min acc b)).1 (min_le_left _ _), ?_⟩
    intro a ha
    rcases List.mem_cons.1 ha with rfl | ha
    · exact le_trans (ih (min acc a)).1 (min_le_right _ _)
    · exact (ih (min acc b)).2 a ha

lemma minFloor_le (alpha : List ℚ) : ∀ a ∈ alpha, minFloor alpha ≤ a := by
  cases alpha with
  | nil => simp
  | cons b t =>
    intro a ha
    rcases List.mem_cons.1 ha with rfl | ha
    · exact (foldl_min_le t a).1
    · exact (foldl_min_le t b).2 a ha

lemma waterAlloc_minFloor (alpha : List ℚ) :
    waterAlloc (minFloor alpha) alpha = alpha.map (fun _ => 0) := by
  unfold waterAlloc
  apply List.map_congr_left
  intro a ha
  exact max_eq_left (sub_nonpos.mpr (minFloor_le alpha a ha))

lemma bisect_allocation (alpha : List ℚ) (P tol : ℚ) :
    ∀ (fuel : ℕ) (lo hi best : ℚ),
      (bisect alpha P tol fuel lo hi best).allocation =
        waterAlloc (bisect alpha P tol fuel lo hi best).waterLevel alpha := by
  intro fuel
  induction fuel with
  | zero => intro lo hi best; rfl
  | succ n ih =>
    intro lo hi best
    unfold bisect
    split
    · rfl
    · split
      · exact ih _ _ _
      · exact ih _ _ _

lemma bisect_optimal_excess (alpha : List ℚ) (P tol : ℚ) :
    ∀ (fuel : ℕ) (lo hi best : ℚ),
      (bisect alpha P tol fuel lo hi best).status = Status.optimal →
      ratAbs (excess alpha P (bisect alpha P tol fuel lo hi best).waterLevel) ≤ tol := by
  intro fuel
  induction fuel with
  | zero =>
    intro lo hi best h
    exact absurd h (by simp [bisect, mkResult])
  | succ n ih =>
    intro lo hi best
    unfold bisect
    split
    · intro _
      simpa [mkResult] using (by assumption : ratAbs (excess alpha P ((lo + hi) / 2)) ≤ tol)
    · split
      · exact ih _ _ _
      · exact ih _ _ _

lemma validInput_not_rejected {alpha : List ℚ} {P : ℚ} (hv : validInput alpha P) :
    ¬ (alpha = [] ∨ (∃ a ∈ alpha, a ≤ 0) ∨ P < 0) := by
  rcases hv with ⟨h1, h2, h3⟩
  push_neg
  exact ⟨h1, h2, h3⟩

lemma solve_ok_allocation {alpha : List ℚ} {P tol : ℚ} {it : ℕ} {r : Result}
    (h : solve alpha P tol it = Except.ok r) :
    r.allocation = waterAlloc r.waterLevel alpha := by
  unfold solve at h
  split at h
  · simp at h
  · split at h
    · injection h with h; subst h; rfl
    · split at h
      · injection h with h; subst h; rfl
      · injection h with h; subst h
        exact bisect_allocation alpha P tol _ _ _ _

lemma solve_optimal_excess {alpha : List ℚ} {P tol : ℚ} {it : ℕ} {r : Result}
    (htol : 0 ≤ tol) (h : solve alpha P tol it = Except.ok r)
    (hopt : r.status = Status.optimal) :
    ratAbs (excess alpha P r.waterLevel) ≤ tol := by
  unfold solve at h
  split at h
  · simp at h
  · split at h
    · injection h with h; subst h
      have hz : excess alpha (0 : ℚ) (minFloor alpha) = 0 := by
        unfold excess
        rw [waterAlloc_minFloor]
        simp
      subst (by assumption : P = 0)
      simpa [mkResult, hz, ratAbs] using htol
    · split at h
      · injection h with h; subst h
        simpa [mkResult] using
          (by assumption : ratAbs (excess alpha P (maxFloor alpha + P)) ≤ tol)
      · injection h with h; subst h
        exact bisect_optimal_excess alpha P tol _ _ _ _ hopt

lemma solve_optimal_sum {alpha : List ℚ} {P tol : ℚ} {it : ℕ} {r : Result}
    (htol : 0 ≤ tol) (h : solve alpha P tol it = Except.ok r)
    (hopt : r.status = Status.optimal) :
    |r.allocation.sum - P| ≤ tol := by
  have h1 := solve_optimal_excess htol h hopt
  rw [ratAbs_eq_abs] at h1
  unfold excess at h1
  rwa [← solve_ok_allocation h] at h1

lemma solve_valid_ok {alpha : List ℚ} {P : ℚ} (tol : ℚ) (it : ℕ)
    (hv : validInput alpha P) : ∃ r, solve alpha P tol it = Except.ok r := by
  unfold solve
  rw [if_neg (validInput_not_rejected hv)]
  by_cases hP : P = 0
  · rw [if_pos hP]; exact ⟨_, rfl⟩
  · rw [if_neg hP]
    by_cases hhi : ratAbs (excess alpha P (maxFloor alpha + P)) ≤ tol
    · rw [if_pos hhi]; exact ⟨_, rfl⟩
    · rw [if_neg hhi]; exact ⟨_, rfl⟩

lemma bisect_step_stop {alpha : List ℚ} {P tol lo hi best m f : ℚ} {n : ℕ}
    (hm : (lo + hi) / 2 = m) (hf : excess alpha P m = f) (h1 : ratAbs f ≤ tol) :
    bisect alpha P tol (n + 1) lo hi best = mkResult Status.optimal alpha m := by
  simp only [bisect]
  rw [hm, hf, if_pos h1]

lemma bisect_step_up {alpha : List ℚ} {P tol lo hi best m b f fb : ℚ} {n : ℕ}
    (hm : (lo + hi) / 2 = m) (hf : excess alpha P m = f)
    (hfb : excess alpha P best = fb) (h1 : ¬ ratAbs f ≤ tol) (h2 : f < 0)
    (hb : (if ratAbs f < ratAbs fb then m else best) = b) :
    bisect alpha P tol (n + 1) lo hi best = bisect alpha P tol n m hi b := by
  simp only [bisect, nextBest]
  rw [hm, hf, hfb, if_neg h1, if_pos h2, hb]

lemma bisect_step_down {alpha : List ℚ} {P tol lo hi best m b f fb : ℚ} {n : ℕ}
    (hm : (lo + hi) / 2 = m) (hf : excess alpha P m = f)
    (hfb : excess alpha P best = fb) (h1 : ¬ ratAbs f ≤ tol) (h2 : ¬ f < 0)
    (hb : (if ratAbs f < ratAbs fb then m else best) = b) :
    bisect alpha P tol (n + 1) lo hi best = bisect alpha P tol n lo m b := by
  simp only [bisect, nextBest]
  rw [hm, hf, hfb, if_neg h1, if_neg h2, hb]

lemma bisect_exhausted (alpha : List ℚ) (P tol lo hi best : ℚ) :
    bisect alpha P tol 0 lo hi best = mkResult Status.failedToConverge alpha best :=
  rfl

lemma solve_eq_bisect {alpha : List ℚ} {P tol lo hi : ℚ} {it : ℕ}
    (hrej : ¬ (alpha = [] ∨ (∃ a ∈ alpha, a ≤ 0) ∨ P < 0)) (hP : ¬ P = 0)
    (hhi : maxFloor alpha + P = hi) (hlo : minFloor alpha = lo)
    (hhi2 : ¬ ratAbs (excess alpha P hi) ≤ tol) :
    solve alpha P tol it = Except.ok (bisect alpha P tol it lo hi hi) := by
  unfold solve
  rw [if_neg hrej, if_neg hP, hhi, hlo, if_neg hhi2]

set_option maxHeartbeats 2000000 in
lemma c7_chain : bisect [4/5, 1, 6/5] 1 defaultTolerance 100 (4/5) (11/5) (11/5) =
    mkResult Status.optimal [4/5, 1, 6/5] (57266230613/42949672960) := by
  have fb0 : excess [4/5, 1, 6/5] 1 (11/5) = (13/5) := by
    norm_num [excess, waterAlloc]
  have f0 : excess [4/5, 1, 6/5] 1 (3/2) = (1/2) := by
    norm_num [excess, waterAlloc]
  have e0 : bisect [4/5, 1, 6/5] 1 defaultTolerance 100 (4/5) (11/5) (11/5) =
      bisect [4/5, 1, 6/5] 1 defaultTolerance 99 (4/5) (3/2) (3/2) :=
    bisect_step_down (by norm_num) f0 fb0 (by norm_num [ratAbs, defaultTolerance])
      (by norm_num) (by norm_num [ratAbs])
  have f1 : excess [4/5, 1, 6/5] 1 (23/20) = (-1/2) := by
    norm_num [excess, waterAlloc]
  have e1 : bisect [4/5, 1, 6/5] 1 defaultTolerance 99 (4/5) (3/2) (3/2) =
      bisect [4/5, 1, 6/5] 1 defaultTolerance 98 (23/20) (3/2) (3/2) :=
    bisect_step_up (by norm_num) f1 f0 (by norm_num [ratAbs, defaultTolerance])
      (by norm_num) (by norm_num [ratAbs])
  have f2 : excess [4/5, 1, 6/5] 1 (53/40) = (-1/40) := by
    norm_num [excess, waterAlloc]
  have e2 : bisect [4/5, 1, 6/5] 1 defaultTolerance 98 (23/20) (3/2) (3/2) =
      bisect [4/5, 1, 6/5] 1 defaultTolerance 97 (53/40) (3/2) (53/40) :=
    bisect_step_up (by norm_num) f2 f0 (by norm_num [ratAbs, defaultTolerance])
      (by norm_num) (by norm_num [ratAbs])
  have f3 : excess [4/5, 1, 6/5] 1 (113/80) = (19/80) := by
    norm_num [excess, waterAlloc]
  have e3 : bisect [4/5, 1, 6/5] 1 defaultTolerance 97 (53/40) (3/2) (53/40) =
      bisect [4/5, 1, 6/5] 1 defaultTolerance 96 (53/40) (113/80) (53/40) :=
    bisect_step_down (by norm_num) f3 f2 (by norm_num [ratAbs, defaultTolerance])
      (by norm_num) (by norm_num [ratAbs])
  have f4 : excess [4/5, 1, 6/5] 1 (219/160) = (17/160) := by
    norm_num [excess, waterAlloc]
  have e4 : bisect [4/5, 1, 6/5] 1 defaultTolerance 96 (53/40) (113/80) (53/40) =
      bisect [4/5, 1, 6/5] 1 defaultTolerance 95 (53/40) (219/160) (53/40) :=
    bisect_step_down (by norm_num) f4 f2 (by norm_num [ratAbs, defaultTolerance])
      (by norm_num) (by norm_num [ratAbs])
  have f5 : excess [4/5, 1, 6/5] 1 (431/320) = (13/320) := by
    norm_num [excess, waterAlloc]
  have e5 : bisect [4/5, 1, 6/5] 1 defaultTolerance 95 (53/40) (219/160) (53/40) =
      bisect [4/5, 1, 6/5] 1 defaultTolerance 94 (53/40) (431/320) (53/40) :=
    bisect_step_down (by norm_num) f5 f2 (by norm_num [ratAbs, defaultTolerance])
      (by norm_num) (by norm_num [ratAbs])
  have f6 : excess [4/5, 1, 6/5] 1 (171/128) = (1/128) := by
    norm_num [excess, waterAlloc]
  have e6 : bisect [4/5, 1, 6/5] 1 defaultTolerance 94 (53/40) (431/320) (53/40) =
      bisect [4/5, 1, 6/5] 1 defaultTolerance 93 (53/40) (171/128) (171/128) :=
    bisect_step_down (by norm_num) f6 f2 (by norm_num [ratAbs, defaultTolerance])
      (by norm_num) (by norm_num [ratAbs])
  have f7 : excess [4/5, 1, 6/5] 1 (1703/1280) = (-11/1280) := by
    norm_num [excess, waterAlloc]
  have e7 : bisect [4/5, 1, 6/5] 1 defaultTolerance 93 (53/40) (171/128) (171/128) =
      bisect [4/5, 1, 6/5] 1 defaultTolerance 92 (1703/1280) (171/128) (171/128) :=
    bisect_step_up (by norm_num) f7 f6 (by norm_num [ratAbs, defaultTolerance])
      (by norm_num) (by norm_num [ratAbs])
  have f8 : excess [4/5, 1, 6/5] 1 (3413/2560) = (-1/2560) := by
    norm_num [excess, waterAlloc]
  have e8 : bisect [4/5, 1, 6/5] 1 defaultTolerance 92 (1703/1280) (171/128) (171/128) =
      bisect [4/5, 1, 6/5] 1 defaultTolerance 91 (3413/2560) (171/128) (3413/2560) :=
    bisect_step_up (by norm_num) f8 f6 (by norm_num [ratAbs, defaultTolerance])
      (by norm_num) (by norm_num [ratAbs])
  have f9 : excess [4/5, 1, 6/5] 1 (6833/5120) = (19/5120) := by
    norm_num [excess, waterAlloc]
  have e9 : bisect [4/5, 1, 6/5] 1 defaultTolerance 91 (3413/2560) (171/128) (3413/2560) =
      bisect [4/5, 1, 6/5] 1 defaultTolerance 90 (3413/2560) (6833/5120) (3413/2560) :=
    bisect_step_down (by norm_num) f9 f8 (by norm_num [ratAbs, defaultTolerance])
      (by norm_num) (by norm_num [ratAbs])
  have f10 : excess [4/5, 1, 6/5] 1 (13659/10240) = (17/10240) := by
    norm_num [excess, waterAlloc]
  have e10 : bisect [4/5, 1, 6/5] 1 defaultTolerance 90 (3413/2560) (6833/5120) (3413/2560) =
      bisect [4/5, 1, 6/5] 1 defaultTolerance 89 (3413/2560) (13659/10240) (3413/2560) :=
    bisect_step_down (by norm_num) f10 f8 (by norm_num [ratAbs, defaultTolerance])
      (by norm_num) (by norm_num [ratAbs])
  have f11 : excess [4/5, 1, 6/5] 1 (27311/20480) = (13/20480) := by
    norm_num [excess, waterAlloc]
  have e11 : bisect [4/5, 1, 6/5] 1 defaultTolerance 89 (3413/2560) (13659/10240) (3413/2560) =
      bisect [4/5, 1, 6/5] 1 defaultTolerance 88 (3413/2560) (27311/20480) (3413/2560) :=
    bisect_step_down (by norm_num) f11 f8 (by norm_num [ratAbs, defaultTolerance])
      (by norm_num) (by norm_num [ratAbs])
  have f12 : excess [4/5, 1, 6/5] 1 (10923/8192) = (1/8192) := by
    norm_num [excess, waterAlloc]
  have e12 : bisect [4/5, 1, 6/5] 1 defaultTolerance 88 (3413/2560) (27311/20480) (3413/2560) =
      bisect [4/5, 1, 6/5] 1 defaultTolerance 87 (3413/2560) (10923/8192) (10923/8192) :=
    bisect_step_down (by norm_num) f12 f8 (by norm_num [ratAbs, defaultTolerance])
      (by norm_num) (by norm_num [ratAbs])
  have f13 : excess [4/5, 1, 6/5] 1 (109223/81920) = (-11/81920) := by
    norm_num [excess, waterAlloc]
  have e13 : bisect [4/5, 1, 6/5] 1 defaultTolerance 87 (3413/2560) (10923/8192) (10923/8192) =
      bisect [4/5, 1, 6/5] 1 defaultTolerance 86 (109223/81920) (10923/8192) (10923/8192) :=
    bisect_step_up (by norm_num) f13 f12 (by norm_num [ratAbs, defaultTolerance])
      (by norm_num) (by norm_num [ratAbs])
  have f14 : excess [4/5, 1, 6/5] 1 (218453/163840) = (-1/163840) := by
    norm_num [excess, waterAlloc]
  have e14 : bisect [4/5, 1, 6/5] 1 defaultTolerance 86 (109223/81920) (10923/8192) (10923/8192) =
      bisect [4/5, 1, 6/5] 1 defaultTolerance 85 (218453/163840) (10923/8192) (218453/163840) :=
    bisect_step_up (by norm_num) f14 f12 (by norm_num [ratAbs, defaultTolerance])
      (by norm_num) (by norm_num [ratAbs])
  have f15 : excess [4/5, 1, 6/5] 1 (436913/327680) = (19/327680) := by
    norm_num [excess, waterAlloc]
  have e15 : bisect [4/5, 1, 6/5] 1 defaultTolerance 85 (218453/163840) (10923/8192) (218453/163840) =
      bisect [4/5, 1, 6/5] 1 defaultTolerance 84 (218453/163840) (436913/327680) (218453/163840) :=
    bisect_step_down (by norm_num) f15 f14 (by norm_num [ratAbs, defaultTolerance])
      (by norm_num) (by norm_num [ratAbs])
  have f16 : excess [4/5, 1, 6/5] 1 (873819/655360) = (17/655360) := by
    norm_num [excess, waterAlloc]
  have e16 : bisect [4/5, 1, 6/5] 1 defaultTolerance 84 (218453/163840) (436913/327680) (218453/163840) =
      bisect [4/5, 1, 6/5] 1 defaultTolerance 83 (218453/163840) (873819/655360) (218453/163840) :=
    bisect_step_down (by norm_num) f16 f14 (by norm_num [ratAbs, defaultTolerance])
      (by norm_num) (by norm_num [ratAbs])
  have f17 : excess [4/5, 1, 6/5] 1 (1747631/1310720) = (13/1310720) := by
    norm_num [excess, waterAlloc]
  have e17 : bisect [4/5, 1, 6/5] 1 defaultTolerance 83 (218453/163840) (873819/655360) (218453/163840) =
      bisect [4/5, 1, 6/5] 1 defaultTolerance 82 (218453/163840) (1747631/1310720) (218453/163840) :=
    bisect_step_down (by norm_num) f17 f14 (by norm_num [ratAbs, defaultTolerance])
      (by norm_num) (by norm_num [ratAbs])
  have f18 : excess [4/5, 1, 6/5] 1 (699051/524288) = (1/524288) := by
    norm_num [excess, waterAlloc]
  have e18 : bisect [4/5, 1, 6/5] 1 defaultTolerance 82 (218453/163840) (1747631/1310720) (218453/163840) =
      bisect [4/5, 1, 6/5] 1 defaultTolerance 81 (218453/163840) (699051/524288) (699051/524288) :=
    bisect_step_down (by norm_num) f18 f14 (by norm_num [ratAbs, defaultTolerance])
      (by norm_num) (by norm_num [ratAbs])
  have f19 : excess [4/5, 1, 6/5] 1 (6990503/5242880) = (-11/5242880) := by
    norm_num [excess, waterAlloc]
  have e19 : bisect [4/5, 1, 6/5] 1 defaultTolerance 81 (218453/163840) (699051/524288) (699051/524288) =
      bisect [4/5, 1, 6/5] 1 defaultTolerance 80 (6990503/5242880) (699051/524288) (699051/524288) :=
    bisect_step_up (by norm_num) f19 f18 (by norm_num [ratAbs, defaultTolerance])
      (by norm_num) (by norm_num [ratAbs])
  have f20 : excess [4/5, 1, 6/5] 1 (13981013/10485760) = (-1/10485760) := by
    norm_num [excess, waterAlloc]
  have e20 : bisect [4/5, 1, 6/5] 1 defaultTolerance 80 (6990503/5242880) (699051/524288) (699051/524288) =
      bisect [4/5, 1, 6/5] 1 defaultTolerance 79 (13981013/10485760) (699051/524288) (13981013/10485760) :=
    bisect_step_up (by norm_num) f20 f18 (by norm_num [ratAbs, defaultTolerance])
      (by norm_num) (by norm_num [ratAbs])
  have f21 : excess [4/5, 1, 6/5] 1 (27962033/20971520) = (19/20971520) := by
    norm_num [excess, waterAlloc]
  have e21 : bisect [4/5, 1, 6/5] 1 defaultTolerance 79 (13981013/10485760) (699051/524288) (13981013/10485760) =
      bisect [4/5, 1, 6/5] 1 defaultTolerance 78 (13981013/10485760) (27962033/20971520) (13981013/10485760) :=
    bisect_step_down (by norm_num) f21 f20 (by norm_num [ratAbs, defaultTolerance])
      (by norm_num) (by norm_num [ratAbs])
  have f22 : excess [4/5, 1, 6/5] 1 (55924059/41943040) = (17/41943040) := by
    norm_num [excess, waterAlloc]
  have e22 : bisect [4/5, 1, 6/5] 1 defaultTolerance 78 (13981013/10485760) (27962033/20971520) (13981013/10485760) =
      bisect [4/5, 1, 6/5] 1 defaultTolerance 77 (13981013/10485760) (55924059/41943040) (13981013/10485760) :=
    bisect_step_down (by norm_num) f22 f20 (by norm_num [ratAbs, defaultTolerance])
      (by norm_num) (by norm_num [ratAbs])
  have f23 : excess [4/5, 1, 6/5] 1 (111848111/83886080) = (13/83886080) := by
    norm_num [excess, waterAlloc]
  have e23 : bisect [4/5, 1, 6/5] 1 defaultTolerance 77 (13981013/10485760) (55924059/41943040) (13981013/10485760) =
      bisect [4/5, 1, 6/5] 1 defaultTolerance 76 (13981013/10485760) (111848111/83886080) (13981013/10485760) :=
    bisect_step_down (by norm_num) f23 f20 (by norm_num [ratAbs, defaultTolerance])
      (by norm_num) (by norm_num [ratAbs])
  have f24 : excess [4/5, 1, 6/5] 1 (44739243/33554432) = (1/33554432) := by
    norm_num [excess, waterAlloc]
  have e24 : bisect [4/5, 1, 6/5] 1 defaultTolerance 76 (13981013/10485760) (111848111/83886080) (13981013/10485760) =
      bisect [4/5, 1, 6/5] 1 defaultTolerance 75 (13981013/10485760) (44739243/33554432) (44739243/33554432) :=
    bisect_step_down (by norm_num) f24 f20 (by norm_num [ratAbs, defaultTolerance])
      (by norm_num) (by norm_num [ratAbs])
  have f25 : excess [4/5, 1, 6/5] 1 (447392423/335544320) = (-11/335544320) := by
    norm_num [excess, waterAlloc]
  have e25 : bisect [4/5, 1, 6/5] 1 defaultTolerance 75 (13981013/10485760) (44739243/33554432) (44739243/33554432) =
      bisect [4/5, 1, 6/5] 1 defaultTolerance 74 (447392423/335544320) (44739243/33554432) (44739243/33554432) :=
    bisect_step_up (by norm_num) f25 f24 (by norm_num [ratAbs, defaultTolerance])
      (by norm_num) (by norm_num [ratAbs])
  have f26 : excess [4/5, 1, 6/5] 1 (894784853/671088640) = (-1/671088640) := by
    norm_num [excess, waterAlloc]
  have e26 : bisect [4/5, 1, 6/5] 1 defaultTolerance 74 (447392423/335544320) (44739243/33554432) (44739243/33554432) =
      bisect [4/5, 1, 6/5] 1 defaultTolerance 73 (894784853/671088640) (44739243/33554432) (894784853/671088640) :=
    bisect_step_up (by norm_num) f26 f24 (by norm_num [ratAbs, defaultTolerance])
      (by norm_num) (by norm_num [ratAbs])
  have f27 : excess [4/5, 1, 6/5] 1 (1789569713/1342177280) = (19/1342177280) := by
    norm_num [excess, waterAlloc]
  have e27 : bisect [4/5, 1, 6/5] 1 defaultTolerance 73 (894784853/671088640) (44739243/33554432) (894784853/671088640) =
      bisect [4/5, 1, 6/5] 1 defaultTolerance 72 (894784853/671088640) (1789569713/1342177280) (894784853/671088640) :=
    bisect_step_down (by norm_num) f27 f26 (by norm_num [ratAbs, defaultTolerance])
      (by norm_num) (by norm_num [ratAbs])
  have f28 : excess [4/5, 1, 6/5] 1 (3579139419/2684354560) = (17/2684354560) := by
    norm_num [excess, waterAlloc]
  have e28 : bisect [4/5, 1, 6/5] 1 defaultTolerance 72 (894784853/671088640) (1789569713/1342177280) (894784853/671088640) =
      bisect [4/5, 1, 6/5] 1 defaultTolerance 71 (894784853/671088640) (3579139419/2684354560) (894784853/671088640) :=
    bisect_step_down (by norm_num) f28 f26 (by norm_num [ratAbs, defaultTolerance])
      (by norm_num) (by norm_num [ratAbs])
  have f29 : excess [4/5, 1, 6/5] 1 (7158278831/5368709120) = (13/5368709120) := by
    norm_num [excess, waterAlloc]
  have e29 : bisect [4/5, 1, 6/5] 1 defaultTolerance 71 (894784853/671088640) (3579139419/2684354560) (894784853/671088640) =
      bisect [4/5, 1, 6/5] 1 defaultTolerance 70 (894784853/671088640) (7158278831/5368709120) (894784853/671088640) :=
    bisect_step_down (by norm_num) f29 f26 (by norm_num [ratAbs, defaultTolerance])
      (by norm_num) (by norm_num [ratAbs])
  have f30 : excess [4/5, 1, 6/5] 1 (2863311531/2147483648) = (1/2147483648) := by
    norm_num [excess, waterAlloc]
  have e30 : bisect [4/5, 1, 6/5] 1 defaultTolerance 70 (894784853/671088640) (7158278831/5368709120) (894784853/671088640) =
      bisect [4/5, 1, 6/5] 1 defaultTolerance 69 (894784853/671088640) (2863311531/2147483648) (2863311531/2147483648) :=
    bisect_step_down (by norm_num) f30 f26 (by norm_num [ratAbs, defaultTolerance])
      (by norm_num) (by norm_num [ratAbs])
  have f31 : excess [4/5, 1, 6/5] 1 (28633115303/21474836480) = (-11/21474836480) := by
    norm_num [excess, waterAlloc]
  have e31 : bisect [4/5, 1, 6/5] 1 defaultTolerance 69 (894784853/671088640) (2863311531/2147483648) (2863311531/2147483648) =
      bisect [4/5, 1, 6/5] 1 defaultTolerance 68 (28633115303/21474836480) (2863311531/2147483648) (2863311531/2147483648) :=
    bisect_step_up (by norm_num) f31 f30 (by norm_num [ratAbs, defaultTolerance])
      (by norm_num) (by norm_num [ratAbs])
  have f32 : excess [4/5, 1, 6/5] 1 (57266230613/42949672960) = (-1/42949672960) := by
    norm_num [excess, waterAlloc]
  have e32 : bisect [4/5, 1, 6/5] 1 defaultTolerance 68 (28633115303/21474836480) (2863311531/2147483648) (2863311531/2147483648) =
      mkResult Status.optimal [4/5, 1, 6/5] (57266230613/42949672960) :=
    bisect_step_stop (by norm_num) f32 (by norm_num [ratAbs, defaultTolerance])
  rw [e0, e1, e2, e3, e4, e5, e6, e7, e8, e9, e10, e11, e12, e13, e14, e15, e16, e17, e18, e19, e20, e21, e22, e23, e24, e25, e26, e27, e28, e29, e30, e31, e32]

set_option maxHeartbeats 2000000 in
lemma c1_chain : bisect [1, 1000000000000000000000000] (1/5) defaultTolerance 100 (1) (5000000000000000000000001/5) (5000000000000000000000001/5) =
    mkResult Status.failedToConverge [1, 1000000000000000000000000] (190147575028528675187087875319/158456325028528675187087900672) := by
  have fb0 : excess [1, 1000000000000000000000000] (1/5) (5000000000000000000000001/5) = (4999999999999999999999996/5) := by
    norm_num [excess, waterAlloc]
  have f0 : excess [1, 1000000000000000000000000] (1/5) (2500000000000000000000003/5) = (2499999999999999999999997/5) := by
    norm_num [excess, waterAlloc]
  have e0 : bisect [1, 1000000000000000000000000] (1/5) defaultTolerance 100 (1) (5000000000000000000000001/5) (5000000000000000000000001/5) =
      bisect [1, 1000000000000000000000000] (1/5) defaultTolerance 99 (1) (2500000000000000000000003/5) (2500000000000000000000003/5) :=
    bisect_step_down (by norm_num) f0 fb0 (by norm_num [ratAbs, defaultTolerance])
      (by norm_num) (by norm_num [ratAbs])
  have f1 : excess [1, 1000000000000000000000000] (1/5) (1250000000000000000000004/5) = (1249999999999999999999998/5) := by
    norm_num [excess, waterAlloc]
  have e1 : bisect [1, 1000000000000000000000000] (1/5) defaultTolerance 99 (1) (2500000000000000000000003/5) (2500000000000000000000003/5) =
      bisect [1, 1000000000000000000000000] (1/5) defaultTolerance 98 (1) (1250000000000000000000004/5) (1250000000000000000000004/5) :=
    bisect_step_down (by norm_num) f1 f0 (by norm_num [ratAbs, defaultTolerance])
      (by norm_num) (by norm_num [ratAbs])
  have f2 : excess [1, 1000000000000000000000000] (1/5) (1250000000000000000000009/10) = (1249999999999999999999997/10) := by
    norm_num [excess, waterAlloc]
  have e2 : bisect [1, 1000000000000000000000000] (1/5) defaultTolerance 98 (1) (1250000000000000000000004/5) (1250000000000000000000004/5) =
      bisect [1, 1000000000000000000000000] (1/5) defaultTolerance 97 (1) (1250000000000000000000009/10) (1250000000000000000000009/10) :=
    bisect_step_down (by norm_num) f2 f1 (by norm_num [ratAbs, defaultTolerance])
      (by norm_num) (by norm_num [ratAbs])
  have f3 : excess [1, 1000000000000000000000000] (1/5) (1250000000000000000000019/20) = (249999999999999999999999/4) := by
    norm_num [excess, waterAlloc]
  have e3 : bisect [1, 1000000000000000000000000] (1/5) defaultTolerance 97 (1) (1250000000000000000000009/10) (1250000000000000000000009/10) =
      bisect [1, 1000000000000000000000000] (1/5) defaultTolerance 96 (1) (1250000000000000000000019/20) (1250000000000000000000019/20) :=
    bisect_step_down (by norm_num) f3 f2 (by norm_num [ratAbs, defaultTolerance])
      (by norm_num) (by norm_num [ratAbs])
  have f4 : excess [1, 1000000000000000000000000] (1/5) (1250000000000000000000039/40) = (1249999999999999999999991/40) := by
    norm_num [excess, waterAlloc]
  have e4 : bisect [1, 1000000000000000000000000] (1/5) defaultTolerance 96 (1) (1250000000000000000000019/20) (1250000000000000000000019/20) =
      bisect [1, 1000000000000000000000000] (1/5) defaultTolerance 95 (1) (1250000000000000000000039/40) (1250000000000000000000039/40) :=
    bisect_step_down (by norm_num) f4 f3 (by norm_num [ratAbs, defaultTolerance])
      (by norm_num) (by norm_num [ratAbs])
  have f5 : excess [1, 1000000000000000000000000] (1/5) (1250000000000000000000079/80) = (1249999999999999999999983/80) := by
    norm_num [excess, waterAlloc]
  have e5 : bisect [1, 1000000000000000000000000] (1/5) defaultTolerance 95 (1) (1250000000000000000000039/40) (1250000000000000000000039/40) =
      bisect [1, 1000000000000000000000000] (1/5) defaultTolerance 94 (1) (1250000000000000000000079/80) (1250000000000000000000079/80) :=
    bisect_step_down (by norm_num) f5 f4 (by norm_num [ratAbs, defaultTolerance])
      (by norm_num) (by norm_num [ratAbs])
  have f6 : excess [1, 1000000000000000000000000] (1/5) (1250000000000000000000159/160) = (1249999999999999999999967/160) := by
    norm_num [excess, waterAlloc]
  have e6 : bisect [1, 1000000000000000000000000] (1/5) defaultTolerance 94 (1) (1250000000000000000000079/80) (1250000000000000000000079/80) =
      bisect [1, 1000000000000000000000000] (1/5) defaultTolerance 93 (1) (1250000000000000000000159/160) (1250000000000000000000159/160) :=
    bisect_step_down (by norm_num) f6 f5 (by norm_num [ratAbs, defaultTolerance])
      (by norm_num) (by norm_num [ratAbs])
  have f7 : excess [1, 1000000000000000000000000] (1/5) (1250000000000000000000319/320) = (249999999999999999999987/64) := by
    norm_num [excess, waterAlloc]
  have e7 : bisect [1, 1000000000000000000000000] (1/5) defaultTolerance 93 (1) (1250000000000000000000159/160) (1250000000000000000000159/160) =
      bisect [1, 1000000000000000000000000] (1/5) defaultTolerance 92 (1) (1250000000000000000000319/320) (1250000000000000000000319/320) :=
    bisect_step_down (by norm_num) f7 f6 (by norm_num [ratAbs, defaultTolerance])
      (by norm_num) (by norm_num [ratAbs])
  have f8 : excess [1, 1000000000000000000000000] (1/5) (1250000000000000000000639/640) = (1249999999999999999999871/640) := by
    norm_num [excess, waterAlloc]
  have e8 : bisect [1, 1000000000000000000000000] (1/5) defaultTolerance 92 (1) (1250000000000000000000319/320) (1250000000000000000000319/320) =
      bisect [1, 1000000000000000000000000] (1/5) defaultTolerance 91 (1) (1250000000000000000000639/640) (1250000000000000000000639/640) :=
    bisect_step_down (by norm_num) f8 f7 (by norm_num [ratAbs, defaultTolerance])
      (by norm_num) (by norm_num [ratAbs])
  have f9 : excess [1, 1000000000000000000000000] (1/5) (1250000000000000000001279/1280) = (1249999999999999999999743/1280) := by
    norm_num [excess, waterAlloc]
  have e9 : bisect [1, 1000000000000000000000000] (1/5) defaultTolerance 91 (1) (1250000000000000000000639/640) (1250000000000000000000639/640) =
      bisect [1, 1000000000000000000000000] (1/5) defaultTolerance 90 (1) (1250000000000000000001279/1280) (1250000000000000000001279/1280) :=
    bisect_step_down (by norm_num) f9 f8 (by norm_num [ratAbs, defaultTolerance])
      (by norm_num) (by norm_num [ratAbs])
  have f10 : excess [1, 1000000000000000000000000] (1/5) (1250000000000000000002559/2560) = (1249999999999999999999487/2560) := by
    norm_num [excess, waterAlloc]
  have e10 : bisect [1, 1000000000000000000000000] (1/5) defaultTolerance 90 (1) (1250000000000000000001279/1280) (1250000000000000000001279/1280) =
      bisect [1, 1000000000000000000000000] (1/5) defaultTolerance 89 (1) (1250000000000000000002559/2560) (1250000000000000000002559/2560) :=
    bisect_step_down (by norm_num) f10 f9 (by norm_num [ratAbs, defaultTolerance])
      (by norm_num) (by norm_num [ratAbs])
  have f11 : excess [1, 1000000000000000000000000] (1/5) (1250000000000000000005119/5120) = (249999999999999999999795/1024) := by
    norm_num [excess, waterAlloc]
  have e11 : bisect [1, 1000000000000000000000000] (1/5) defaultTolerance 89 (1) (1250000000000000000002559/2560) (1250000000000000000002559/2560) =
      bisect [1, 1000000000000000000000000] (1/5) defaultTolerance 88 (1) (1250000000000000000005119/5120) (1250000000000000000005119/5120) :=
    bisect_step_down (by norm_num) f11 f10 (by norm_num [ratAbs, defaultTolerance])
      (by norm_num) (by norm_num [ratAbs])
  have f12 : excess [1, 1000000000000000000000000] (1/5) (1250000000000000000010239/10240) = (1249999999999999999997951/10240) := by
    norm_num [excess, waterAlloc]
  have e12 : bisect [1, 1000000000000000000000000] (1/5) defaultTolerance 88 (1) (1250000000000000000005119/5120) (1250000000000000000005119/5120) =
      bisect [1, 1000000000000000000000000] (1/5) defaultTolerance 87 (1) (1250000000000000000010239/10240) (1250000000000000000010239/10240) :=
    bisect_step_down (by norm_num) f12 f11 (by norm_num [ratAbs, defaultTolerance])
      (by norm_num) (by norm_num [ratAbs])
  have f13 : excess [1, 1000000000000000000000000] (1/5) (1250000000000000000020479/20480) = (1249999999999999999995903/20480) := by
    norm_num [excess, waterAlloc]
  have e13 : bisect [1, 1000000000000000000000000] (1/5) defaultTolerance 87 (1) (1250000000000000000010239/10240) (1250000000000000000010239/10240) =
      bisect [1, 1000000000000000000000000] (1/5) defaultTolerance 86 (1) (1250000000000000000020479/20480) (1250000000000000000020479/20480) :=
    bisect_step_down (by norm_num) f13 f12 (by norm_num [ratAbs, defaultTolerance])
      (by norm_num) (by norm_num [ratAbs])
  have f14 : excess [1, 1000000000000000000000000] (1/5) (1250000000000000000040959/40960) = (1249999999999999999991807/40960) := by
    norm_num [excess, waterAlloc]
  have e14 : bisect [1, 1000000000000000000000000] (1/5) defaultTolerance 86 (1) (1250000000000000000020479/20480) (1250000000000000000020479/20480) =
      bisect [1, 1000000000000000000000000] (1/5) defaultTolerance 85 (1) (1250000000000000000040959/40960) (1250000000000000000040959/40960) :=
    bisect_step_down (by norm_num) f14 f13 (by norm_num [ratAbs, defaultTolerance])
      (by norm_num) (by norm_num [ratAbs])
  have f15 : excess [1, 1000000000000000000000000] (1/5) (1250000000000000000081919/81920) = (249999999999999999996723/16384) := by
    norm_num [excess, waterAlloc]
  have e15 : bisect [1, 1000000000000000000000000] (1/5) defaultTolerance 85 (1) (1250000000000000000040959/40960) (1250000000000000000040959/40960) =
      bisect [1, 1000000000000000000000000] (1/5) defaultTolerance 84 (1) (1250000000000000000081919/81920) (1250000000000000000081919/81920) :=
    bisect_step_down (by norm_num) f15 f14 (by norm_num [ratAbs, defaultTolerance])
      (by norm_num) (by norm_num [ratAbs])
  have f16 : excess [1, 1000000000000000000000000] (1/5) (1250000000000000000163839/163840) = (1249999999999999999967231/163840) := by
    norm_num [excess, waterAlloc]
  have e16 : bisect [1, 1000000000000000000000000] (1/5) defaultTolerance 84 (1) (1250000000000000000081919/81920) (1250000000000000000081919/81920) =
      bisect [1, 1000000000000000000000000] (1/5) defaultTolerance 83 (1) (1250000000000000000163839/163840) (1250000000000000000163839/163840) :=
    bisect_step_down (by norm_num) f16 f15 (by norm_num [ratAbs, defaultTolerance])
      (by norm_num) (by norm_num [ratAbs])
  have f17 : excess [1, 1000000000000000000000000] (1/5) (1250000000000000000327679/327680) = (1249999999999999999934463/327680) := by
    norm_num [excess, waterAlloc]
  have e17 : bisect [1, 1000000000000000000000000] (1/5) defaultTolerance 83 (1) (1250000000000000000163839/163840) (1250000000000000000163839/163840) =
      bisect [1, 1000000000000000000000000] (1/5) defaultTolerance 82 (1) (1250000000000000000327679/327680) (1250000000000000000327679/327680) :=
    bisect_step_down (by norm_num) f17 f16 (by norm_num [ratAbs, defaultTolerance])
      (by norm_num) (by norm_num [ratAbs])
  have f18 : excess [1, 1000000000000000000000000] (1/5) (1250000000000000000655359/655360) = (1249999999999999999868927/655360) := by
    norm_num [excess, waterAlloc]
  have e18 : bisect [1, 1000000000000000000000000] (1/5) defaultTolerance 82 (1) (1250000000000000000327679/327680) (1250000000000000000327679/327680) =
      bisect [1, 1000000000000000000000000] (1/5) defaultTolerance 81 (1) (1250000000000000000655359/655360) (1250000000000000000655359/655360) :=
    bisect_step_down (by norm_num) f18 f17 (by norm_num [ratAbs, defaultTolerance])
      (by norm_num) (by norm_num [ratAbs])
  have f19 : excess [1, 1000000000000000000000000] (1/5) (1250000000000000001310719/1310720) = (249999999999999999947571/262144) := by
    norm_num [excess, waterAlloc]
  have e19 : bisect [1, 1000000000000000000000000] (1/5) defaultTolerance 81 (1) (1250000000000000000655359/655360) (1250000000000000000655359/655360) =
      bisect [1, 1000000000000000000000000] (1/5) defaultTolerance 80 (1) (1250000000000000001310719/1310720) (1250000000000000001310719/1310720) :=
    bisect_step_down (by norm_num) f19 f18 (by norm_num [ratAbs, defaultTolerance])
      (by norm_num) (by norm_num [ratAbs])
  have f20 : excess [1, 1000000000000000000000000] (1/5) (1250000000000000002621439/2621440) = (1249999999999999999475711/2621440) := by
    norm_num [excess, waterAlloc]
  have e20 : bisect [1, 1000000000000000000000000] (1/5) defaultTolerance 80 (1) (1250000000000000001310719/1310720) (1250000000000000001310719/1310720) =
      bisect [1, 1000000000000000000000000] (1/5) defaultTolerance 79 (1) (1250000000000000002621439/2621440) (1250000000000000002621439/2621440) :=
    bisect_step_down (by norm_num) f20 f19 (by norm_num [ratAbs, defaultTolerance])
      (by norm_num) (by norm_num [ratAbs])
  have f21 : excess [1, 1000000000000000000000000] (1/5) (1250000000000000005242879/5242880) = (1249999999999999998951423/5242880) := by
    norm_num [excess, waterAlloc]
  have e21 : bisect [1, 1000000000000000000000000] (1/5) defaultTolerance 79 (1) (1250000000000000002621439/2621440) (1250000000000000002621439/2621440) =
      bisect [1, 1000000000000000000000000] (1/5) defaultTolerance 78 (1) (1250000000000000005242879/5242880) (1250000000000000005242879/5242880) :=
    bisect_step_down (by norm_num) f21 f20 (by norm_num [ratAbs, defaultTolerance])
      (by norm_num) (by norm_num [ratAbs])
  have f22 : excess [1, 1000000000000000000000000] (1/5) (1250000000000000010485759/10485760) = (1249999999999999997902847/10485760) := by
    norm_num [excess, waterAlloc]
  have e22 : bisect [1, 1000000000000000000000000] (1/5) defaultTolerance 78 (1) (1250000000000000005242879/5242880) (1250000000000000005242879/5242880) =
      bisect [1, 1000000000000000000000000] (1/5) defaultTolerance 77 (1) (1250000000000000010485759/10485760) (1250000000000000010485759/10485760) :=
    bisect_step_down (by norm_num) f22 f21 (by norm_num [ratAbs, defaultTolerance])
      (by norm_num) (by norm_num [ratAbs])
  have f23 : excess [1, 1000000000000000000000000] (1/5) (1250000000000000020971519/20971520) = (249999999999999999161139/4194304) := by
    norm_num [excess, waterAlloc]
  have e23 : bisect [1, 1000000000000000000000000] (1/5) defaultTolerance 77 (1) (1250000000000000010485759/10485760) (1250000000000000010485759/10485760) =
      bisect [1, 1000000000000000000000000] (1/5) defaultTolerance 76 (1) (1250000000000000020971519/20971520) (1250000000000000020971519/20971520) :=
    bisect_step_down (by norm_num) f23 f22 (by norm_num [ratAbs, defaultTolerance])
      (by norm_num) (by norm_num [ratAbs])
  have f24 : excess [1, 1000000000000000000000000] (1/5) (1250000000000000041943039/41943040) = (1249999999999999991611391/41943040) := by
    norm_num [excess, waterAlloc]
  have e24 : bisect [1, 1000000000000000000000000] (1/5) defaultTolerance 76 (1) (1250000000000000020971519/20971520) (1250000000000000020971519/20971520) =
      bisect [1, 1000000000000000000000000] (1/5) defaultTolerance 75 (1) (1250000000000000041943039/41943040) (1250000000000000041943039/41943040) :=
    bisect_step_down (by norm_num) f24 f23 (by norm_num [ratAbs, defaultTolerance])
      (by norm_num) (by norm_num [ratAbs])
  have f25 : excess [1, 1000000000000000000000000] (1/5) (1250000000000000083886079/83886080) = (1249999999999999983222783/83886080) := by
    norm_num [excess, waterAlloc]
  have e25 : bisect [1, 1000000000000000000000000] (1/5) defaultTolerance 75 (1) (1250000000000000041943039/41943040) (1250000000000000041943039/41943040) =
      bisect [1, 1000000000000000000000000] (1/5) defaultTolerance 74 (1) (1250000000000000083886079/83886080) (1250000000000000083886079/83886080) :=
    bisect_step_down (by norm_num) f25 f24 (by norm_num [ratAbs, defaultTolerance])
      (by norm_num) (by norm_num [ratAbs])
  have f26 : excess [1, 1000000000000000000000000] (1/5) (1250000000000000167772159/167772160) = (1249999999999999966445567/167772160) := by
    norm_num [excess, waterAlloc]
  have e26 : bisect [1, 1000000000000000000000000] (1/5) defaultTolerance 74 (1) (1250000000000000083886079/83886080) (1250000000000000083886079/83886080) =
      bisect [1, 1000000000000000000000000] (1/5) defaultTolerance 73 (1) (1250000000000000167772159/167772160) (1250000000000000167772159/167772160) :=
    bisect_step_down (by norm_num) f26 f25 (by norm_num [ratAbs, defaultTolerance])
      (by norm_num) (by norm_num [ratAbs])
  have f27 : excess [1, 1000000000000000000000000] (1/5) (1250000000000000335544319/335544320) = (249999999999999986578227/67108864) := by
    norm_num [excess, waterAlloc]
  have e27 : bisect [1, 1000000000000000000000000] (1/5) defaultTolerance 73 (1) (1250000000000000167772159/167772160) (1250000000000000167772159/167772160) =
      bisect [1, 1000000000000000000000000] (1/5) defaultTolerance 72 (1) (1250000000000000335544319/335544320) (1250000000000000335544319/335544320) :=
    bisect_step_down (by norm_num) f27 f26 (by norm_num [ratAbs, defaultTolerance])
      (by norm_num) (by norm_num [ratAbs])
  have f28 : excess [1, 1000000000000000000000000] (1/5) (1250000000000000671088639/671088640) = (1249999999999999865782271/671088640) := by
    norm_num [excess, waterAlloc]
  have e28 : bisect [1, 1000000000000000000000000] (1/5) defaultTolerance 72 (1) (1250000000000000335544319/335544320) (1250000000000000335544319/335544320) =
      bisect [1, 1000000000000000000000000] (1/5) defaultTolerance 71 (1) (1250000000000000671088639/671088640) (1250000000000000671088639/671088640) :=
    bisect_step_down (by norm_num) f28 f27 (by norm_num [ratAbs, defaultTolerance])
      (by norm_num) (by norm_num [ratAbs])
  have f29 : excess [1, 1000000000000000000000000] (1/5) (1250000000000001342177279/1342177280) = (1249999999999999731564543/1342177280) := by
    norm_num [excess, waterAlloc]
  have e29 : bisect [1, 1000000000000000000000000] (1/5) defaultTolerance 71 (1) (1250000000000000671088639/671088640) (1250000000000000671088639/671088640) =
      bisect [1, 1000000000000000000000000] (1/5) defaultTolerance 70 (1) (1250000000000001342177279/1342177280) (1250000000000001342177279/1342177280) :=
    bisect_step_down (by norm_num) f29 f28 (by norm_num [ratAbs, defaultTolerance])
      (by norm_num) (by norm_num [ratAbs])
  have f30 : excess [1, 1000000000000000000000000] (1/5) (1250000000000002684354559/2684354560) = (1249999999999999463129087/2684354560) := by
    norm_num [excess, waterAlloc]
  have e30 : bisect [1, 1000000000000000000000000] (1/5) defaultTolerance 70 (1) (1250000000000001342177279/1342177280) (1250000000000001342177279/1342177280) =
      bisect [1, 1000000000000000000000000] (1/5) defaultTolerance 69 (1) (1250000000000002684354559/2684354560) (1250000000000002684354559/2684354560) :=
    bisect_step_down (by norm_num) f30 f29 (by norm_num [ratAbs, defaultTolerance])
      (by norm_num) (by norm_num [ratAbs])
  have f31 : excess [1, 1000000000000000000000000] (1/5) (1250000000000005368709119/5368709120) = (249999999999999785251635/1073741824) := by
    norm_num [excess, waterAlloc]
  have e31 : bisect [1, 1000000000000000000000000] (1/5) defaultTolerance 69 (1) (1250000000000002684354559/2684354560) (1250000000000002684354559/2684354560) =
      bisect [1, 1000000000000000000000000] (1/5) defaultTolerance 68 (1) (1250000000000005368709119/5368709120) (1250000000000005368709119/5368709120) :=
    bisect_step_down (by norm_num) f31 f30 (by norm_num [ratAbs, defaultTolerance])
      (by norm_num) (by norm_num [ratAbs])
  have f32 : excess [1, 1000000000000000000000000] (1/5) (1250000000000010737418239/10737418240) = (1249999999999997852516351/10737418240) := by
    norm_num [excess, waterAlloc]
  have e32 : bisect [1, 1000000000000000000000000] (1/5) defaultTolerance 68 (1) (1250000000000005368709119/5368709120) (1250000000000005368709119/5368709120) =
      bisect [1, 1000000000000000000000000] (1/5) defaultTolerance 67 (1) (1250000000000010737418239/10737418240) (1250000000000010737418239/10737418240) :=
    bisect_step_down (by norm_num) f32 f31 (by norm_num [ratAbs, defaultTolerance])
      (by norm_num) (by norm_num [ratAbs])
  have f33 : excess [1, 1000000000000000000000000] (1/5) (1250000000000021474836479/21474836480) = (1249999999999995705032703/21474836480) := by
    norm_num [excess, waterAlloc]
  have e33 : bisect [1, 1000000000000000000000000] (1/5) defaultTolerance 67 (1) (1250000000000010737418239/10737418240) (1250000000000010737418239/10737418240) =
      bisect [1, 1000000000000000000000000] (1/5) defaultTolerance 66 (1) (1250000000000021474836479/21474836480) (1250000000000021474836479/21474836480) :=
    bisect_step_down (by norm_num) f33 f32 (by norm_num [ratAbs, defaultTolerance])
      (by norm_num) (by norm_num [ratAbs])
  have f34 : excess [1, 1000000000000000000000000] (1/5) (1250000000000042949672959/42949672960) = (1249999999999991410065407/42949672960) := by
    norm_num [excess, waterAlloc]
  have e34 : bisect [1, 1000000000000000000000000] (1/5) defaultTolerance 66 (1) (1250000000000021474836479/21474836480) (1250000000000021474836479/21474836480) =
      bisect [1, 1000000000000000000000000] (1/5) defaultTolerance 65 (1) (1250000000000042949672959/42949672960) (1250000000000042949672959/42949672960) :=
    bisect_step_down (by norm_num) f34 f33 (by norm_num [ratAbs, defaultTolerance])
      (by norm_num) (by norm_num [ratAbs])
  have f35 : excess [1, 1000000000000000000000000] (1/5) (1250000000000085899345919/85899345920) = (249999999999996564026163/17179869184) := by
    norm_num [excess, waterAlloc]
  have e35 : bisect [1, 1000000000000000000000000] (1/5) defaultTolerance 65 (1) (1250000000000042949672959/42949672960) (1250000000000042949672959/42949672960) =
      bisect [1, 1000000000000000000000000] (1/5) defaultTolerance 64 (1) (1250000000000085899345919/85899345920) (1250000000000085899345919/85899345920) :=
    bisect_step_down (by norm_num) f35 f34 (by norm_num [ratAbs, defaultTolerance])
      (by norm_num) (by norm_num [ratAbs])
  have f36 : excess [1, 1000000000000000000000000] (1/5) (1250000000000171798691839/171798691840) = (1249999999999965640261631/171798691840) := by
    norm_num [excess, waterAlloc]
  have e36 : bisect [1, 1000000000000000000000000] (1/5) defaultTolerance 64 (1) (1250000000000085899345919/85899345920) (1250000000000085899345919/85899345920) =
      bisect [1, 1000000000000000000000000] (1/5) defaultTolerance 63 (1) (1250000000000171798691839/171798691840) (1250000000000171798691839/171798691840) :=
    bisect_step_down (by norm_num) f36 f35 (by norm_num [ratAbs, defaultTolerance])
      (by norm_num) (by norm_num [ratAbs])
  have f37 : excess [1, 1000000000000000000000000] (1/5) (1250000000000343597383679/343597383680) = (1249999999999931280523263/343597383680) := by
    norm_num [excess, waterAlloc]
  have e37 : bisect [1, 1000000000000000000000000] (1/5) defaultTolerance 63 (1) (1250000000000171798691839/171798691840) (1250000000000171798691839/171798691840) =
      bisect [1, 1000000000000000000000000] (1/5) defaultTolerance 62 (1) (1250000000000343597383679/343597383680) (1250000000000343597383679/343597383680) :=
    bisect_step_down (by norm_num) f37 f36 (by norm_num [ratAbs, defaultTolerance])
      (by norm_num) (by norm_num [ratAbs])
  have f38 : excess [1, 1000000000000000000000000] (1/5) (1250000000000687194767359/687194767360) = (1249999999999862561046527/687194767360) := by
    norm_num [excess, waterAlloc]
  have e38 : bisect [1, 1000000000000000000000000] (1/5) defaultTolerance 62 (1) (1250000000000343597383679/343597383680) (1250000000000343597383679/343597383680) =
      bisect [1, 1000000000000000000000000] (1/5) defaultTolerance 61 (1) (1250000000000687194767359/687194767360) (1250000000000687194767359/687194767360) :=
    bisect_step_down (by norm_num) f38 f37 (by norm_num [ratAbs, defaultTolerance])
      (by norm_num) (by norm_num [ratAbs])
  have f39 : excess [1, 1000000000000000000000000] (1/5) (1250000000001374389534719/1374389534720) = (249999999999945024418611/274877906944) := by
    norm_num [excess, waterAlloc]
  have e39 : bisect [1, 1000000000000000000000000] (1/5) defaultTolerance 61 (1) (1250000000000687194767359/687194767360) (1250000000000687194767359/687194767360) =
      bisect [1, 1000000000000000000000000] (1/5) defaultTolerance 60 (1) (1250000000001374389534719/1374389534720) (1250000000001374389534719/1374389534720) :=
    bisect_step_down (by norm_num) f39 f38 (by norm_num [ratAbs, defaultTolerance])
      (by norm_num) (by norm_num [ratAbs])
  have f40 : excess [1, 1000000000000000000000000] (1/5) (1250000000002748779069439/2748779069440) = (1249999999999450244186111/2748779069440) := by
    norm_num [excess, waterAlloc]
  have e40 : bisect [1, 1000000000000000000000000] (1/5) defaultTolerance 60 (1) (1250000000001374389534719/1374389534720) (1250000000001374389534719/1374389534720) =
      bisect [1, 1000000000000000000000000] (1/5) defaultTolerance 59 (1) (1250000000002748779069439/2748779069440) (1250000000002748779069439/2748779069440) :=
    bisect_step_down (by norm_num) f40 f39 (by norm_num [ratAbs, defaultTolerance])
      (by norm_num) (by norm_num [ratAbs])
  have f41 : excess [1, 1000000000000000000000000] (1/5) (1250000000005497558138879/5497558138880) = (1249999999998900488372223/5497558138880) := by
    norm_num [excess, waterAlloc]
  have e41 : bisect [1, 1000000000000000000000000] (1/5) defaultTolerance 59 (1) (1250000000002748779069439/2748779069440) (1250000000002748779069439/2748779069440) =
      bisect [1, 1000000000000000000000000] (1/5) defaultTolerance 58 (1) (1250000000005497558138879/5497558138880) (1250000000005497558138879/5497558138880) :=
    bisect_step_down (by norm_num) f41 f40 (by norm_num [ratAbs, defaultTolerance])
      (by norm_num) (by norm_num [ratAbs])
  have f42 : excess [1, 1000000000000000000000000] (1/5) (1250000000010995116277759/10995116277760) = (1249999999997800976744447/10995116277760) := by
    norm_num [excess, waterAlloc]
  have e42 : bisect [1, 1000000000000000000000000] (1/5) defaultTolerance 58 (1) (1250000000005497558138879/5497558138880) (1250000000005497558138879/5497558138880) =
      bisect [1, 1000000000000000000000000] (1/5) defaultTolerance 57 (1) (1250000000010995116277759/10995116277760) (1250000000010995116277759/10995116277760) :=
    bisect_step_down (by norm_num) f42 f41 (by norm_num [ratAbs, defaultTolerance])
      (by norm_num) (by norm_num [ratAbs])
  have f43 : excess [1, 1000000000000000000000000] (1/5) (1250000000021990232555519/21990232555520) = (249999999999120390697779/4398046511104) := by
    norm_num [excess, waterAlloc]
  have e43 : bisect [1, 1000000000000000000000000] (1/5) defaultTolerance 57 (1) (1250000000010995116277759/10995116277760) (1250000000010995116277759/10995116277760) =
      bisect [1, 1000000000000000000000000] (1/5) defaultTolerance 56 (1) (1250000000021990232555519/21990232555520) (1250000000021990232555519/21990232555520) :=
    bisect_step_down (by norm_num) f43 f42 (by norm_num [ratAbs, defaultTolerance])
      (by norm_num) (by norm_num [ratAbs])
  have f44 : excess [1, 1000000000000000000000000] (1/5) (1250000000043980465111039/43980465111040) = (1249999999991203906977791/43980465111040) := by
    norm_num [excess, waterAlloc]
  have e44 : bisect [1, 1000000000000000000000000] (1/5) defaultTolerance 56 (1) (1250000000021990232555519/21990232555520) (1250000000021990232555519/21990232555520) =
      bisect [1, 1000000000000000000000000] (1/5) defaultTolerance 55 (1) (1250000000043980465111039/43980465111040) (1250000000043980465111039/43980465111040) :=
    bisect_step_down (by norm_num) f44 f43 (by norm_num [ratAbs, defaultTolerance])
      (by norm_num) (by norm_num [ratAbs])
  have f45 : excess [1, 1000000000000000000000000] (1/5) (1250000000087960930222079/87960930222080) = (1249999999982407813955583/87960930222080) := by
    norm_num [excess, waterAlloc]
  have e45 : bisect [1, 1000000000000000000000000] (1/5) defaultTolerance 55 (1) (1250000000043980465111039/43980465111040) (1250000000043980465111039/43980465111040) =
      bisect [1, 1000000000000000000000000] (1/5) defaultTolerance 54 (1) (1250000000087960930222079/87960930222080) (1250000000087960930222079/87960930222080) :=
    bisect_step_down (by norm_num) f45 f44 (by norm_num [ratAbs, defaultTolerance])
      (by norm_num) (by norm_num [ratAbs])
  have f46 : excess [1, 1000000000000000000000000] (1/5) (1250000000175921860444159/175921860444160) = (1249999999964815627911167/175921860444160) := by
    norm_num [excess, waterAlloc]
  have e46 : bisect [1, 1000000000000000000000000] (1/5) defaultTolerance 54 (1) (1250000000087960930222079/87960930222080) (1250000000087960930222079/87960930222080) =
      bisect [1, 1000000000000000000000000] (1/5) defaultTolerance 53 (1) (1250000000175921860444159/175921860444160) (1250000000175921860444159/175921860444160) :=
    bisect_step_down (by norm_num) f46 f45 (by norm_num [ratAbs, defaultTolerance])
      (by norm_num) (by norm_num [ratAbs])
  have f47 : excess [1, 1000000000000000000000000] (1/5) (1250000000351843720888319/351843720888320) = (249999999985926251164467/70368744177664) := by
    norm_num [excess, waterAlloc]
  have e47 : bisect [1, 1000000000000000000000000] (1/5) defaultTolerance 53 (1) (1250000000175921860444159/175921860444160) (1250000000175921860444159/175921860444160) =
      bisect [1, 1000000000000000000000000] (1/5) defaultTolerance 52 (1) (1250000000351843720888319/351843720888320) (1250000000351843720888319/351843720888320) :=
    bisect_step_down (by norm_num) f47 f46 (by norm_num [ratAbs, defaultTolerance])
      (by norm_num) (by norm_num [ratAbs])
  have f48 : excess [1, 1000000000000000000000000] (1/5) (1250000000703687441776639/703687441776640) = (1249999999859262511644671/703687441776640) := by
    norm_num [excess, waterAlloc]
  have e48 : bisect [1, 1000000000000000000000000] (1/5) defaultTolerance 52 (1) (1250000000351843720888319/351843720888320) (1250000000351843720888319/351843720888320) =
      bisect [1, 1000000000000000000000000] (1/5) defaultTolerance 51 (1) (1250000000703687441776639/703687441776640) (1250000000703687441776639/703687441776640) :=
    bisect_step_down (by norm_num) f48 f47 (by norm_num [ratAbs, defaultTolerance])
      (by norm_num) (by norm_num [ratAbs])
  have f49 : excess [1, 1000000000000000000000000] (1/5) (1250000001407374883553279/1407374883553280) = (1249999999718525023289343/1407374883553280) := by
    norm_num [excess, waterAlloc]
  have e49 : bisect [1, 1000000000000000000000000] (1/5) defaultTolerance 51 (1) (1250000000703687441776639/703687441776640) (1250000000703687441776639/703687441776640) =
      bisect [1, 1000000000000000000000000] (1/5) defaultTolerance 50 (1) (1250000001407374883553279/1407374883553280) (1250000001407374883553279/1407374883553280) :=
    bisect_step_down (by norm_num) f49 f48 (by norm_num [ratAbs, defaultTolerance])
      (by norm_num) (by norm_num [ratAbs])
  have f50 : excess [1, 1000000000000000000000000] (1/5) (1250000002814749767106559/2814749767106560) = (1249999999437050046578687/2814749767106560) := by
    norm_num [excess, waterAlloc]
  have e50 : bisect [1, 1000000000000000000000000] (1/5) defaultTolerance 50 (1) (1250000001407374883553279/1407374883553280) (1250000001407374883553279/1407374883553280) =
      bisect [1, 1000000000000000000000000] (1/5) defaultTolerance 49 (1) (1250000002814749767106559/2814749767106560) (1250000002814749767106559/2814749767106560) :=
    bisect_step_down (by norm_num) f50 f49 (by norm_num [ratAbs, defaultTolerance])
      (by norm_num) (by norm_num [ratAbs])
  have f51 : excess [1, 1000000000000000000000000] (1/5) (1250000005629499534213119/5629499534213120) = (249999999774820018631475/1125899906842624) := by
    norm_num [excess, waterAlloc]
  have e51 : bisect [1, 1000000000000000000000000] (1/5) defaultTolerance 49 (1) (1250000002814749767106559/2814749767106560) (1250000002814749767106559/2814749767106560) =
      bisect [1, 1000000000000000000000000] (1/5) defaultTolerance 48 (1) (1250000005629499534213119/5629499534213120) (1250000005629499534213119/5629499534213120) :=
    bisect_step_down (by norm_num) f51 f50 (by norm_num [ratAbs, defaultTolerance])
      (by norm_num) (by norm_num [ratAbs])
  have f52 : excess [1, 1000000000000000000000000] (1/5) (1250000011258999068426239/11258999068426240) = (1249999997748200186314751/11258999068426240) := by
    norm_num [excess, waterAlloc]
  have e52 : bisect [1, 1000000000000000000000000] (1/5) defaultTolerance 48 (1) (1250000005629499534213119/5629499534213120) (1250000005629499534213119/5629499534213120) =
      bisect [1, 1000000000000000000000000] (1/5) defaultTolerance 47 (1) (1250000011258999068426239/11258999068426240) (1250000011258999068426239/11258999068426240) :=
    bisect_step_down (by norm_num) f52 f51 (by norm_num [ratAbs, defaultTolerance])
      (by norm_num) (by norm_num [ratAbs])
  have f53 : excess [1, 1000000000000000000000000] (1/5) (1250000022517998136852479/22517998136852480) = (1249999995496400372629503/22517998136852480) := by
    norm_num [excess, waterAlloc]
  have e53 : bisect [1, 1000000000000000000000000] (1/5) defaultTolerance 47 (1) (1250000011258999068426239/11258999068426240) (1250000011258999068426239/11258999068426240) =
      bisect [1, 1000000000000000000000000] (1/5) defaultTolerance 46 (1) (1250000022517998136852479/22517998136852480) (1250000022517998136852479/22517998136852480) :=
    bisect_step_down (by norm_num) f53 f52 (by norm_num [ratAbs, defaultTolerance])
      (by norm_num) (by norm_num [ratAbs])
  have f54 : excess [1, 1000000000000000000000000] (1/5) (1250000045035996273704959/45035996273704960) = (1249999990992800745259007/45035996273704960) := by
    norm_num [excess, waterAlloc]
  have e54 : bisect [1, 1000000000000000000000000] (1/5) defaultTolerance 46 (1) (1250000022517998136852479/22517998136852480) (1250000022517998136852479/22517998136852480) =
      bisect [1, 1000000000000000000000000] (1/5) defaultTolerance 45 (1) (1250000045035996273704959/45035996273704960) (1250000045035996273704959/45035996273704960) :=
    bisect_step_down (by norm_num) f54 f53 (by norm_num [ratAbs, defaultTolerance])
      (by norm_num) (by norm_num [ratAbs])
  have f55 : excess [1, 1000000000000000000000000] (1/5) (1250000090071992547409919/90071992547409920) = (249999996397120298103603/18014398509481984) := by
    norm_num [excess, waterAlloc]
  have e55 : bisect [1, 1000000000000000000000000] (1/5) defaultTolerance 45 (1) (1250000045035996273704959/45035996273704960) (1250000045035996273704959/45035996273704960) =
      bisect [1, 1000000000000000000000000] (1/5) defaultTolerance 44 (1) (1250000090071992547409919/90071992547409920) (1250000090071992547409919/90071992547409920) :=
    bisect_step_down (by norm_num) f55 f54 (by norm_num [ratAbs, defaultTolerance])
      (by norm_num) (by norm_num [ratAbs])
  have f56 : excess [1, 1000000000000000000000000] (1/5) (1250000180143985094819839/180143985094819840) = (1249999963971202981036031/180143985094819840) := by
    norm_num [excess, waterAlloc]
  have e56 : bisect [1, 1000000000000000000000000] (1/5) defaultTolerance 44 (1) (1250000090071992547409919/90071992547409920) (1250000090071992547409919/90071992547409920) =
      bisect [1, 1000000000000000000000000] (1/5) defaultTolerance 43 (1) (1250000180143985094819839/180143985094819840) (1250000180143985094819839/180143985094819840) :=
    bisect_step_down (by norm_num) f56 f55 (by norm_num [ratAbs, defaultTolerance])
      (by norm_num) (by norm_num [ratAbs])
  have f57 : excess [1, 1000000000000000000000000] (1/5) (1250000360287970189639679/360287970189639680) = (1249999927942405962072063/360287970189639680) := by
    norm_num [excess, waterAlloc]
  have e57 : bisect [1, 1000000000000000000000000] (1/5) defaultTolerance 43 (1) (1250000180143985094819839/180143985094819840) (1250000180143985094819839/180143985094819840) =
      bisect [1, 1000000000000000000000000] (1/5) defaultTolerance 42 (1) (1250000360287970189639679/360287970189639680) (1250000360287970189639679/360287970189639680) :=
    bisect_step_down (by norm_num) f57 f56 (by norm_num [ratAbs, defaultTolerance])
      (by norm_num) (by norm_num [ratAbs])
  have f58 : excess [1, 1000000000000000000000000] (1/5) (1250000720575940379279359/720575940379279360) = (1249999855884811924144127/720575940379279360) := by
    norm_num [excess, waterAlloc]
  have e58 : bisect [1, 1000000000000000000000000] (1/5) defaultTolerance 42 (1) (1250000360287970189639679/360287970189639680) (1250000360287970189639679/360287970189639680) =
      bisect [1, 1000000000000000000000000] (1/5) defaultTolerance 41 (1) (1250000720575940379279359/720575940379279360) (1250000720575940379279359/720575940379279360) :=
    bisect_step_down (by norm_num) f58 f57 (by norm_num [ratAbs, defaultTolerance])
      (by norm_num) (by norm_num [ratAbs])
  have f59 : excess [1, 1000000000000000000000000] (1/5) (1250001441151880758558719/1441151880758558720) = (249999942353924769657651/288230376151711744) := by
    norm_num [excess, waterAlloc]
  have e59 : bisect [1, 1000000000000000000000000] (1/5) defaultTolerance 41 (1) (1250000720575940379279359/720575940379279360) (1250000720575940379279359/720575940379279360) =
      bisect [1, 1000000000000000000000000] (1/5) defaultTolerance 40 (1) (1250001441151880758558719/1441151880758558720) (1250001441151880758558719/1441151880758558720) :=
    bisect_step_down (by norm_num) f59 f58 (by norm_num [ratAbs, defaultTolerance])
      (by norm_num) (by norm_num [ratAbs])
  have f60 : excess [1, 1000000000000000000000000] (1/5) (1250002882303761517117439/2882303761517117440) = (1249999423539247696576511/2882303761517117440) := by
    norm_num [excess, waterAlloc]
  have e60 : bisect [1, 1000000000000000000000000] (1/5) defaultTolerance 40 (1) (1250001441151880758558719/1441151880758558720) (1250001441151880758558719/1441151880758558720) =
      bisect [1, 1000000000000000000000000] (1/5) defaultTolerance 39 (1) (1250002882303761517117439/2882303761517117440) (1250002882303761517117439/2882303761517117440) :=
    bisect_step_down (by norm_num) f60 f59 (by norm_num [ratAbs, defaultTolerance])
      (by norm_num) (by norm_num [ratAbs])
  have f61 : excess [1, 1000000000000000000000000] (1/5) (1250005764607523034234879/5764607523034234880) = (1249998847078495393153023/5764607523034234880) := by
    norm_num [excess, waterAlloc]
  have e61 : bisect [1, 1000000000000000000000000] (1/5) defaultTolerance 39 (1) (1250002882303761517117439/2882303761517117440) (1250002882303761517117439/2882303761517117440) =
      bisect [1, 1000000000000000000000000] (1/5) defaultTolerance 38 (1) (1250005764607523034234879/5764607523034234880) (1250005764607523034234879/5764607523034234880) :=
    bisect_step_down (by norm_num) f61 f60 (by norm_num [ratAbs, defaultTolerance])
      (by norm_num) (by norm_num [ratAbs])
  have f62 : excess [1, 1000000000000000000000000] (1/5) (1250011529215046068469759/11529215046068469760) = (1249997694156990786306047/11529215046068469760) := by
    norm_num [excess, waterAlloc]
  have e62 : bisect [1, 1000000000000000000000000] (1/5) defaultTolerance 38 (1) (1250005764607523034234879/5764607523034234880) (1250005764607523034234879/5764607523034234880) =
      bisect [1, 1000000000000000000000000] (1/5) defaultTolerance 37 (1) (1250011529215046068469759/11529215046068469760) (1250011529215046068469759/11529215046068469760) :=
    bisect_step_down (by norm_num) f62 f61 (by norm_num [ratAbs, defaultTolerance])
      (by norm_num) (by norm_num [ratAbs])
  have f63 : excess [1, 1000000000000000000000000] (1/5) (1250023058430092136939519/23058430092136939520) = (249999077662796314522419/4611686018427387904) := by
    norm_num [excess, waterAlloc]
  have e63 : bisect [1, 1000000000000000000000000] (1/5) defaultTolerance 37 (1) (1250011529215046068469759/11529215046068469760) (1250011529215046068469759/11529215046068469760) =
      bisect [1, 1000000000000000000000000] (1/5) defaultTolerance 36 (1) (1250023058430092136939519/23058430092136939520) (1250023058430092136939519/23058430092136939520) :=
    bisect_step_down (by norm_num) f63 f62 (by norm_num [ratAbs, defaultTolerance])
      (by norm_num) (by norm_num [ratAbs])
  have f64 : excess [1, 1000000000000000000000000] (1/5) (1250046116860184273879039/46116860184273879040) = (1249990776627963145224191/46116860184273879040) := by
    norm_num [excess, waterAlloc]
  have e64 : bisect [1, 1000000000000000000000000] (1/5) defaultTolerance 36 (1) (1250023058430092136939519/23058430092136939520) (1250023058430092136939519/23058430092136939520) =
      bisect [1, 1000000000000000000000000] (1/5) defaultTolerance 35 (1) (1250046116860184273879039/46116860184273879040) (1250046116860184273879039/46116860184273879040) :=
    bisect_step_down (by norm_num) f64 f63 (by norm_num [ratAbs, defaultTolerance])
      (by norm_num) (by norm_num [ratAbs])
  have f65 : excess [1, 1000000000000000000000000] (1/5) (1250092233720368547758079/92233720368547758080) = (1249981553255926290448383/92233720368547758080) := by
    norm_num [excess, waterAlloc]
  have e65 : bisect [1, 1000000000000000000000000] (1/5) defaultTolerance 35 (1) (1250046116860184273879039/46116860184273879040) (1250046116860184273879039/46116860184273879040) =
      bisect [1, 1000000000000000000000000] (1/5) defaultTolerance 34 (1) (1250092233720368547758079/92233720368547758080) (1250092233720368547758079/92233720368547758080) :=
    bisect_step_down (by norm_num) f65 f64 (by norm_num [ratAbs, defaultTolerance])
      (by norm_num) (by norm_num [ratAbs])
  have f66 : excess [1, 1000000000000000000000000] (1/5) (1250184467440737095516159/184467440737095516160) = (1249963106511852580896767/184467440737095516160) := by
    norm_num [excess, waterAlloc]
  have e66 : bisect [1, 1000000000000000000000000] (1/5) defaultTolerance 34 (1) (1250092233720368547758079/92233720368547758080) (1250092233720368547758079/92233720368547758080) =
      bisect [1, 1000000000000000000000000] (1/5) defaultTolerance 33 (1) (1250184467440737095516159/184467440737095516160) (1250184467440737095516159/184467440737095516160) :=
    bisect_step_down (by norm_num) f66 f65 (by norm_num [ratAbs, defaultTolerance])
      (by norm_num) (by norm_num [ratAbs])
  have f67 : excess [1, 1000000000000000000000000] (1/5) (1250368934881474191032319/368934881474191032320) = (249985242604741032358707/73786976294838206464) := by
    norm_num [excess, waterAlloc]
  have e67 : bisect [1, 1000000000000000000000000] (1/5) defaultTolerance 33 (1) (1250184467440737095516159/184467440737095516160) (1250184467440737095516159/184467440737095516160) =
      bisect [1, 1000000000000000000000000] (1/5) defaultTolerance 32 (1) (1250368934881474191032319/368934881474191032320) (1250368934881474191032319/368934881474191032320) :=
    bisect_step_down (by norm_num) f67 f66 (by norm_num [ratAbs, defaultTolerance])
      (by norm_num) (by norm_num [ratAbs])
  have f68 : excess [1, 1000000000000000000000000] (1/5) (1250737869762948382064639/737869762948382064640) = (1249852426047410323587071/737869762948382064640) := by
    norm_num [excess, waterAlloc]
  have e68 : bisect [1, 1000000000000000000000000] (1/5) defaultTolerance 32 (1) (1250368934881474191032319/368934881474191032320) (1250368934881474191032319/368934881474191032320) =
      bisect [1, 1000000000000000000000000] (1/5) defaultTolerance 31 (1) (1250737869762948382064639/737869762948382064640) (1250737869762948382064639/737869762948382064640) :=
    bisect_step_down (by norm_num) f68 f67 (by norm_num [ratAbs, defaultTolerance])
      (by norm_num) (by norm_num [ratAbs])
  have f69 : excess [1, 1000000000000000000000000] (1/5) (1251475739525896764129279/1475739525896764129280) = (1249704852094820647174143/1475739525896764129280) := by
    norm_num [excess, waterAlloc]
  have e69 : bisect [1, 1000000000000000000000000] (1/5) defaultTolerance 31 (1) (1250737869762948382064639/737869762948382064640) (1250737869762948382064639/737869762948382064640) =
      bisect [1, 1000000000000000000000000] (1/5) defaultTolerance 30 (1) (1251475739525896764129279/1475739525896764129280) (1251475739525896764129279/1475739525896764129280) :=
    bisect_step_down (by norm_num) f69 f68 (by norm_num [ratAbs, defaultTolerance])
      (by norm_num) (by norm_num [ratAbs])
  have f70 : excess [1, 1000000000000000000000000] (1/5) (1252951479051793528258559/2951479051793528258560) = (1249409704189641294348287/2951479051793528258560) := by
    norm_num [excess, waterAlloc]
  have e70 : bisect [1, 1000000000000000000000000] (1/5) defaultTolerance 30 (1) (1251475739525896764129279/1475739525896764129280) (1251475739525896764129279/1475739525896764129280) =
      bisect [1, 1000000000000000000000000] (1/5) defaultTolerance 29 (1) (1252951479051793528258559/2951479051793528258560) (1252951479051793528258559/2951479051793528258560) :=
    bisect_step_down (by norm_num) f70 f69 (by norm_num [ratAbs, defaultTolerance])
      (by norm_num) (by norm_num [ratAbs])
  have f71 : excess [1, 1000000000000000000000000] (1/5) (1255902958103587056517119/5902958103587056517120) = (249763881675856517739315/1180591620717411303424) := by
    norm_num [excess, waterAlloc]
  have e71 : bisect [1, 1000000000000000000000000] (1/5) defaultTolerance 29 (1) (1252951479051793528258559/2951479051793528258560) (1252951479051793528258559/2951479051793528258560) =
      bisect [1, 1000000000000000000000000] (1/5) defaultTolerance 28 (1) (1255902958103587056517119/5902958103587056517120) (1255902958103587056517119/5902958103587056517120) :=
    bisect_step_down (by norm_num) f71 f70 (by norm_num [ratAbs, defaultTolerance])
      (by norm_num) (by norm_num [ratAbs])
  have f72 : excess [1, 1000000000000000000000000] (1/5) (1261805916207174113034239/11805916207174113034240) = (1247638816758565177393151/11805916207174113034240) := by
    norm_num [excess, waterAlloc]
  have e72 : bisect [1, 1000000000000000000000000] (1/5) defaultTolerance 28 (1) (1255902958103587056517119/5902958103587056517120) (1255902958103587056517119/5902958103587056517120) =
      bisect [1, 1000000000000000000000000] (1/5) defaultTolerance 27 (1) (1261805916207174113034239/11805916207174113034240) (1261805916207174113034239/11805916207174113034240) :=
    bisect_step_down (by norm_num) f72 f71 (by norm_num [ratAbs, defaultTolerance])
      (by norm_num) (by norm_num [ratAbs])
  have f73 : excess [1, 1000000000000000000000000] (1/5) (1273611832414348226068479/23611832414348226068480) = (1245277633517130354786303/23611832414348226068480) := by
    norm_num [excess, waterAlloc]
  have e73 : bisect [1, 1000000000000000000000000] (1/5) defaultTolerance 27 (1) (1261805916207174113034239/11805916207174113034240) (1261805916207174113034239/11805916207174113034240) =
      bisect [1, 1000000000000000000000000] (1/5) defaultTolerance 26 (1) (1273611832414348226068479/23611832414348226068480) (1273611832414348226068479/23611832414348226068480) :=
    bisect_step_down (by norm_num) f73 f72 (by norm_num [ratAbs, defaultTolerance])
      (by norm_num) (by norm_num [ratAbs])
  have f74 : excess [1, 1000000000000000000000000] (1/5) (1297223664828696452136959/47223664828696452136960) = (1240555267034260709572607/47223664828696452136960) := by
    norm_num [excess, waterAlloc]
  have e74 : bisect [1, 1000000000000000000000000] (1/5) defaultTolerance 26 (1) (1273611832414348226068479/23611832414348226068480) (1273611832414348226068479/23611832414348226068480) =
      bisect [1, 1000000000000000000000000] (1/5) defaultTolerance 25 (1) (1297223664828696452136959/47223664828696452136960) (1297223664828696452136959/47223664828696452136960) :=
    bisect_step_down (by norm_num) f74 f73 (by norm_num [ratAbs, defaultTolerance])
      (by norm_num) (by norm_num [ratAbs])
  have f75 : excess [1, 1000000000000000000000000] (1/5) (1344447329657392904273919/94447329657392904273920) = (246222106813704283829043/18889465931478580854784) := by
    norm_num [excess, waterAlloc]
  have e75 : bisect [1, 1000000000000000000000000] (1/5) defaultTolerance 25 (1) (1297223664828696452136959/47223664828696452136960) (1297223664828696452136959/47223664828696452136960) =
      bisect [1, 1000000000000000000000000] (1/5) defaultTolerance 24 (1) (1344447329657392904273919/94447329657392904273920) (1344447329657392904273919/94447329657392904273920) :=
    bisect_step_down (by norm_num) f75 f74 (by norm_num [ratAbs, defaultTolerance])
      (by norm_num) (by norm_num [ratAbs])
  have f76 : excess [1, 1000000000000000000000000] (1/5) (1438894659314785808547839/188894659314785808547840) = (1212221068137042838290431/188894659314785808547840) := by
    norm_num [excess, waterAlloc]
  have e76 : bisect [1, 1000000000000000000000000] (1/5) defaultTolerance 24 (1) (1344447329657392904273919/94447329657392904273920) (1344447329657392904273919/94447329657392904273920) =
      bisect [1, 1000000000000000000000000] (1/5) defaultTolerance 23 (1) (1438894659314785808547839/188894659314785808547840) (1438894659314785808547839/188894659314785808547840) :=
    bisect_step_down (by norm_num) f76 f75 (by norm_num [ratAbs, defaultTolerance])
      (by norm_num) (by norm_num [ratAbs])
  have f77 : excess [1, 1000000000000000000000000] (1/5) (1627789318629571617095679/377789318629571617095680) = (1174442136274085676580863/377789318629571617095680) := by
    norm_num [excess, waterAlloc]
  have e77 : bisect [1, 1000000000000000000000000] (1/5) defaultTolerance 23 (1) (1438894659314785808547839/188894659314785808547840) (1438894659314785808547839/188894659314785808547840) =
      bisect [1, 1000000000000000000000000] (1/5) defaultTolerance 22 (1) (1627789318629571617095679/377789318629571617095680) (1627789318629571617095679/377789318629571617095680) :=
    bisect_step_down (by norm_num) f77 f76 (by norm_num [ratAbs, defaultTolerance])
      (by norm_num) (by norm_num [ratAbs])
  have f78 : excess [1, 1000000000000000000000000] (1/5) (2005578637259143234191359/755578637259143234191360) = (1098884272548171353161727/755578637259143234191360) := by
    norm_num [excess, waterAlloc]
  have e78 : bisect [1, 1000000000000000000000000] (1/5) defaultTolerance 22 (1) (1627789318629571617095679/377789318629571617095680) (1627789318629571617095679/377789318629571617095680) =
      bisect [1, 1000000000000000000000000] (1/5) defaultTolerance 21 (1) (2005578637259143234191359/755578637259143234191360) (2005578637259143234191359/755578637259143234191360) :=
    bisect_step_down (by norm_num) f78 f77 (by norm_num [ratAbs, defaultTolerance])
      (by norm_num) (by norm_num [ratAbs])
  have f79 : excess [1, 1000000000000000000000000] (1/5) (2761157274518286468382719/1511157274518286468382720) = (189553709019268541264691/302231454903657293676544) := by
    norm_num [excess, waterAlloc]
  have e79 : bisect [1, 1000000000000000000000000] (1/5) defaultTolerance 21 (1) (2005578637259143234191359/755578637259143234191360) (2005578637259143234191359/755578637259143234191360) =
      bisect [1, 1000000000000000000000000] (1/5) defaultTolerance 20 (1) (2761157274518286468382719/1511157274518286468382720) (2761157274518286468382719/1511157274518286468382720) :=
    bisect_step_down (by norm_num) f79 f78 (by norm_num [ratAbs, defaultTolerance])
      (by norm_num) (by norm_num [ratAbs])
  have f80 : excess [1, 1000000000000000000000000] (1/5) (4272314549036572936765439/3022314549036572936765440) = (645537090192685412646911/3022314549036572936765440) := by
    norm_num [excess, waterAlloc]
  have e80 : bisect [1, 1000000000000000000000000] (1/5) defaultTolerance 20 (1) (2761157274518286468382719/1511157274518286468382720) (2761157274518286468382719/1511157274518286468382720) =
      bisect [1, 1000000000000000000000000] (1/5) defaultTolerance 19 (1) (4272314549036572936765439/3022314549036572936765440) (4272314549036572936765439/3022314549036572936765440) :=
    bisect_step_down (by norm_num) f80 f79 (by norm_num [ratAbs, defaultTolerance])
      (by norm_num) (by norm_num [ratAbs])
  have f81 : excess [1, 1000000000000000000000000] (1/5) (7294629098073145873530879/6044629098073145873530880) = (41074180385370825293823/6044629098073145873530880) := by
    norm_num [excess, waterAlloc]
  have e81 : bisect [1, 1000000000000000000000000] (1/5) defaultTolerance 19 (1) (4272314549036572936765439/3022314549036572936765440) (4272314549036572936765439/3022314549036572936765440) =
      bisect [1, 1000000000000000000000000] (1/5) defaultTolerance 18 (1) (7294629098073145873530879/6044629098073145873530880) (7294629098073145873530879/6044629098073145873530880) :=
    bisect_step_down (by norm_num) f81 f80 (by norm_num [ratAbs, defaultTolerance])
      (by norm_num) (by norm_num [ratAbs])
  have f82 : excess [1, 1000000000000000000000000] (1/5) (13339258196146291747061759/12089258196146291747061760) = (-1167851639229258349412353/12089258196146291747061760) := by
    norm_num [excess, waterAlloc]
  have e82 : bisect [1, 1000000000000000000000000] (1/5) defaultTolerance 18 (1) (7294629098073145873530879/6044629098073145873530880) (7294629098073145873530879/6044629098073145873530880) =
      bisect [1, 1000000000000000000000000] (1/5) defaultTolerance 17 (13339258196146291747061759/12089258196146291747061760) (7294629098073145873530879/6044629098073145873530880) (7294629098073145873530879/6044629098073145873530880) :=
    bisect_step_up (by norm_num) f82 f81 (by norm_num [ratAbs, defaultTolerance])
      (by norm_num) (by norm_num [ratAbs])
  have f83 : excess [1, 1000000000000000000000000] (1/5) (27928516392292583494123517/24178516392292583494123520) = (-1085703278458516698824707/24178516392292583494123520) := by
    norm_num [excess, waterAlloc]
  have e83 : bisect [1, 1000000000000000000000000] (1/5) defaultTolerance 17 (13339258196146291747061759/12089258196146291747061760) (7294629098073145873530879/6044629098073145873530880) (7294629098073145873530879/6044629098073145873530880) =
      bisect [1, 1000000000000000000000000] (1/5) defaultTolerance 16 (27928516392292583494123517/24178516392292583494123520) (7294629098073145873530879/6044629098073145873530880) (7294629098073145873530879/6044629098073145873530880) :=
    bisect_step_up (by norm_num) f83 f81 (by norm_num [ratAbs, defaultTolerance])
      (by norm_num) (by norm_num [ratAbs])
  have f84 : excess [1, 1000000000000000000000000] (1/5) (57107032784585166988247033/48357032784585166988247040) = (-184281311383406679529883/9671406556917033397649408) := by
    norm_num [excess, waterAlloc]
  have e84 : bisect [1, 1000000000000000000000000] (1/5) defaultTolerance 16 (27928516392292583494123517/24178516392292583494123520) (7294629098073145873530879/6044629098073145873530880) (7294629098073145873530879/6044629098073145873530880) =
      bisect [1, 1000000000000000000000000] (1/5) defaultTolerance 15 (57107032784585166988247033/48357032784585166988247040) (7294629098073145873530879/6044629098073145873530880) (7294629098073145873530879/6044629098073145873530880) :=
    bisect_step_up (by norm_num) f84 f81 (by norm_num [ratAbs, defaultTolerance])
      (by norm_num) (by norm_num [ratAbs])
  have f85 : excess [1, 1000000000000000000000000] (1/5) (23092813113834066795298813/19342813113834066795298816) = (-592813113834066795298831/96714065569170333976494080) := by
    norm_num [excess, waterAlloc]
  have e85 : bisect [1, 1000000000000000000000000] (1/5) defaultTolerance 15 (57107032784585166988247033/48357032784585166988247040) (7294629098073145873530879/6044629098073145873530880) (7294629098073145873530879/6044629098073145873530880) =
      bisect [1, 1000000000000000000000000] (1/5) defaultTolerance 14 (23092813113834066795298813/19342813113834066795298816) (7294629098073145873530879/6044629098073145873530880) (23092813113834066795298813/19342813113834066795298816) :=
    bisect_step_up (by norm_num) f85 f81 (by norm_num [ratAbs, defaultTolerance])
      (by norm_num) (by norm_num [ratAbs])
  have f86 : excess [1, 1000000000000000000000000] (1/5) (232178131138340667952988129/193428131138340667952988160) = (64373772331866409402337/193428131138340667952988160) := by
    norm_num [excess, waterAlloc]
  have e86 : bisect [1, 1000000000000000000000000] (1/5) defaultTolerance 14 (23092813113834066795298813/19342813113834066795298816) (7294629098073145873530879/6044629098073145873530880) (23092813113834066795298813/19342813113834066795298816) =
      bisect [1, 1000000000000000000000000] (1/5) defaultTolerance 13 (23092813113834066795298813/19342813113834066795298816) (232178131138340667952988129/193428131138340667952988160) (232178131138340667952988129/193428131138340667952988160) :=
    bisect_step_down (by norm_num) f86 f85 (by norm_num [ratAbs, defaultTolerance])
      (by norm_num) (by norm_num [ratAbs])
  have f87 : excess [1, 1000000000000000000000000] (1/5) (463106262276681335905976259/386856262276681335905976320) = (-224250491067253436239065/77371252455336267181195264) := by
    norm_num [excess, waterAlloc]
  have e87 : bisect [1, 1000000000000000000000000] (1/5) defaultTolerance 13 (23092813113834066795298813/19342813113834066795298816) (232178131138340667952988129/193428131138340667952988160) (232178131138340667952988129/193428131138340667952988160) =
      bisect [1, 1000000000000000000000000] (1/5) defaultTolerance 12 (463106262276681335905976259/386856262276681335905976320) (232178131138340667952988129/193428131138340667952988160) (232178131138340667952988129/193428131138340667952988160) :=
    bisect_step_up (by norm_num) f87 f86 (by norm_num [ratAbs, defaultTolerance])
      (by norm_num) (by norm_num [ratAbs])
  have f88 : excess [1, 1000000000000000000000000] (1/5) (927462524553362671811952517/773712524553362671811952640) = (-992504910672534362390651/773712524553362671811952640) := by
    norm_num [excess, waterAlloc]
  have e88 : bisect [1, 1000000000000000000000000] (1/5) defaultTolerance 12 (463106262276681335905976259/386856262276681335905976320) (232178131138340667952988129/193428131138340667952988160) (232178131138340667952988129/193428131138340667952988160) =
      bisect [1, 1000000000000000000000000] (1/5) defaultTolerance 11 (927462524553362671811952517/773712524553362671811952640) (232178131138340667952988129/193428131138340667952988160) (232178131138340667952988129/193428131138340667952988160) :=
    bisect_step_up (by norm_num) f88 f86 (by norm_num [ratAbs, defaultTolerance])
      (by norm_num) (by norm_num [ratAbs])
  have f89 : excess [1, 1000000000000000000000000] (1/5) (1856175049106725343623905033/1547425049106725343623905280) = (-735009821345068724781303/1547425049106725343623905280) := by
    norm_num [excess, waterAlloc]
  have e89 : bisect [1, 1000000000000000000000000] (1/5) defaultTolerance 11 (927462524553362671811952517/773712524553362671811952640) (232178131138340667952988129/193428131138340667952988160) (232178131138340667952988129/193428131138340667952988160) =
      bisect [1, 1000000000000000000000000] (1/5) defaultTolerance 10 (1856175049106725343623905033/1547425049106725343623905280) (232178131138340667952988129/193428131138340667952988160) (232178131138340667952988129/193428131138340667952988160) :=
    bisect_step_up (by norm_num) f89 f86 (by norm_num [ratAbs, defaultTolerance])
      (by norm_num) (by norm_num [ratAbs])
  have f90 : excess [1, 1000000000000000000000000] (1/5) (742720019642690137449562013/618970019642690137449562112) = (-220019642690137449562607/3094850098213450687247810560) := by
    norm_num [excess, waterAlloc]
  have e90 : bisect [1, 1000000000000000000000000] (1/5) defaultTolerance 10 (1856175049106725343623905033/1547425049106725343623905280) (232178131138340667952988129/193428131138340667952988160) (232178131138340667952988129/193428131138340667952988160) =
      bisect [1, 1000000000000000000000000] (1/5) defaultTolerance 9 (742720019642690137449562013/618970019642690137449562112) (232178131138340667952988129/193428131138340667952988160) (742720019642690137449562013/618970019642690137449562112) :=
    bisect_step_up (by norm_num) f90 f86 (by norm_num [ratAbs, defaultTolerance])
      (by norm_num) (by norm_num [ratAbs])
  have f91 : excess [1, 1000000000000000000000000] (1/5) (7428450196426901374495620129/6189700196426901374495621120) = (161992142923945020174957/1237940039285380274899124224) := by
    norm_num [excess, waterAlloc]
  have e91 : bisect [1, 1000000000000000000000000] (1/5) defaultTolerance 9 (742720019642690137449562013/618970019642690137449562112) (232178131138340667952988129/193428131138340667952988160) (742720019642690137449562013/618970019642690137449562112) =
      bisect [1, 1000000000000000000000000] (1/5) defaultTolerance 8 (742720019642690137449562013/618970019642690137449562112) (7428450196426901374495620129/6189700196426901374495621120) (742720019642690137449562013/618970019642690137449562112) :=
    bisect_step_down (by norm_num) f91 f90 (by norm_num [ratAbs, defaultTolerance])
      (by norm_num) (by norm_num [ratAbs])
  have f92 : excess [1, 1000000000000000000000000] (1/5) (14855650392853802748991240259/12379400392853802748991242240) = (369921429239450201749571/12379400392853802748991242240) := by
    norm_num [excess, waterAlloc]
  have e92 : bisect [1, 1000000000000000000000000] (1/5) defaultTolerance 8 (742720019642690137449562013/618970019642690137449562112) (7428450196426901374495620129/6189700196426901374495621120) (742720019642690137449562013/618970019642690137449562112) =
      bisect [1, 1000000000000000000000000] (1/5) defaultTolerance 7 (742720019642690137449562013/618970019642690137449562112) (14855650392853802748991240259/12379400392853802748991242240) (14855650392853802748991240259/12379400392853802748991242240) :=
    bisect_step_down (by norm_num) f92 f90 (by norm_num [ratAbs, defaultTolerance])
      (by norm_num) (by norm_num [ratAbs])
  have f93 : excess [1, 1000000000000000000000000] (1/5) (29710050785707605497982480519/24758800785707605497982484480) = (-510157141521099596500857/24758800785707605497982484480) := by
    norm_num [excess, waterAlloc]
  have e93 : bisect [1, 1000000000000000000000000] (1/5) defaultTolerance 7 (742720019642690137449562013/618970019642690137449562112) (14855650392853802748991240259/12379400392853802748991242240) (14855650392853802748991240259/12379400392853802748991242240) =
      bisect [1, 1000000000000000000000000] (1/5) defaultTolerance 6 (29710050785707605497982480519/24758800785707605497982484480) (14855650392853802748991240259/12379400392853802748991242240) (29710050785707605497982480519/24758800785707605497982484480) :=
    bisect_step_up (by norm_num) f93 f92 (by norm_num [ratAbs, defaultTolerance])
      (by norm_num) (by norm_num [ratAbs])
  have f94 : excess [1, 1000000000000000000000000] (1/5) (59421351571415210995964961037/49517601571415210995964968960) = (45937143391560161399657/9903520314283042199192993792) := by
    norm_num [excess, waterAlloc]
  have e94 : bisect [1, 1000000000000000000000000] (1/5) defaultTolerance 6 (29710050785707605497982480519/24758800785707605497982484480) (14855650392853802748991240259/12379400392853802748991242240) (29710050785707605497982480519/24758800785707605497982484480) =
      bisect [1, 1000000000000000000000000] (1/5) defaultTolerance 5 (29710050785707605497982480519/24758800785707605497982484480) (59421351571415210995964961037/49517601571415210995964968960) (59421351571415210995964961037/49517601571415210995964968960) :=
    bisect_step_down (by norm_num) f94 f93 (by norm_num [ratAbs, defaultTolerance])
      (by norm_num) (by norm_num [ratAbs])
  have f95 : excess [1, 1000000000000000000000000] (1/5) (23768290628566084398385984415/19807040628566084398385987584) = (-790628566084398386003429/99035203142830421991929937920) := by
    norm_num [excess, waterAlloc]
  have e95 : bisect [1, 1000000000000000000000000] (1/5) defaultTolerance 5 (29710050785707605497982480519/24758800785707605497982484480) (59421351571415210995964961037/49517601571415210995964968960) (59421351571415210995964961037/49517601571415210995964968960) =
      bisect [1, 1000000000000000000000000] (1/5) defaultTolerance 4 (23768290628566084398385984415/19807040628566084398385987584) (59421351571415210995964961037/49517601571415210995964968960) (59421351571415210995964961037/49517601571415210995964968960) :=
    bisect_step_up (by norm_num) f95 f94 (by norm_num [ratAbs, defaultTolerance])
      (by norm_num) (by norm_num [ratAbs])
  have f96 : excess [1, 1000000000000000000000000] (1/5) (237684156285660843983859844149/198070406285660843983859875840) = (-331257132168796772006859/198070406285660843983859875840) := by
    norm_num [excess, waterAlloc]
  have e96 : bisect [1, 1000000000000000000000000] (1/5) defaultTolerance 4 (23768290628566084398385984415/19807040628566084398385987584) (59421351571415210995964961037/49517601571415210995964968960) (59421351571415210995964961037/49517601571415210995964968960) =
      bisect [1, 1000000000000000000000000] (1/5) defaultTolerance 3 (237684156285660843983859844149/198070406285660843983859875840) (59421351571415210995964961037/49517601571415210995964968960) (237684156285660843983859844149/198070406285660843983859875840) :=
    bisect_step_up (by norm_num) f96 f94 (by norm_num [ratAbs, defaultTolerance])
      (by norm_num) (by norm_num [ratAbs])
  have f97 : excess [1, 1000000000000000000000000] (1/5) (475369562571321687967719688297/396140812571321687967719751680) = (587485735662406455986281/396140812571321687967719751680) := by
    norm_num [excess, waterAlloc]
  have e97 : bisect [1, 1000000000000000000000000] (1/5) defaultTolerance 3 (237684156285660843983859844149/198070406285660843983859875840) (59421351571415210995964961037/49517601571415210995964968960) (237684156285660843983859844149/198070406285660843983859875840) =
      bisect [1, 1000000000000000000000000] (1/5) defaultTolerance 2 (237684156285660843983859844149/198070406285660843983859875840) (475369562571321687967719688297/396140812571321687967719751680) (475369562571321687967719688297/396140812571321687967719751680) :=
    bisect_step_down (by norm_num) f97 f96 (by norm_num [ratAbs, defaultTolerance])
      (by norm_num) (by norm_num [ratAbs])
  have f98 : excess [1, 1000000000000000000000000] (1/5) (190147575028528675187087875319/158456325028528675187087900672) = (-75028528675187088027437/792281625142643375935439503360) := by
    norm_num [excess, waterAlloc]
  have e98 : bisect [1, 1000000000000000000000000] (1/5) defaultTolerance 2 (237684156285660843983859844149/198070406285660843983859875840) (475369562571321687967719688297/396140812571321687967719751680) (475369562571321687967719688297/396140812571321687967719751680) =
      bisect [1, 1000000000000000000000000] (1/5) defaultTolerance 1 (190147575028528675187087875319/158456325028528675187087900672) (475369562571321687967719688297/396140812571321687967719751680) (190147575028528675187087875319/158456325028528675187087900672) :=
    bisect_step_up (by norm_num) f98 f97 (by norm_num [ratAbs, defaultTolerance])
      (by norm_num) (by norm_num [ratAbs])
  have f99 : excess [1, 1000000000000000000000000] (1/5) (1901477000285286751870878753189/1584563250285286751870879006720) = (219988588529925164789025/316912650057057350374175801344) := by
    norm_num [excess, waterAlloc]
  have e99 : bisect [1, 1000000000000000000000000] (1/5) defaultTolerance 1 (190147575028528675187087875319/158456325028528675187087900672) (475369562571321687967719688297/396140812571321687967719751680) (190147575028528675187087875319/158456325028528675187087900672) =
      bisect [1, 1000000000000000000000000] (1/5) defaultTolerance 0 (190147575028528675187087875319/158456325028528675187087900672) (1901477000285286751870878753189/1584563250285286751870879006720) (190147575028528675187087875319/158456325028528675187087900672) :=
    bisect_step_down (by norm_num) f99 f98 (by norm_num [ratAbs, defaultTolerance])
      (by norm_num) (by norm_num [ratAbs])
  rw [e0, e1, e2, e3, e4, e5, e6, e7, e8, e9, e10, e11, e12, e13, e14, e15, e16, e17, e18, e19, e20, e21, e22, e23, e24, e25, e26, e27, e28, e29, e30, e31, e32, e33, e34, e35, e36, e37, e38, e39, e40, e41, e42, e43, e44, e45, e46, e47, e48, e49, e50, e51, e52, e53, e54, e55, e56, e57, e58, e59, e60, e61, e62, e63, e64, e65, e66, e67, e68, e69, e70, e71, e72, e73, e74, e75, e76, e77, e78, e79, e80, e81, e82, e83, e84, e85, e86, e87, e88, e89, e90, e91, e92, e93, e94, e95, e96, e97, e98, e99, bisect_exhausted]

lemma status_eq_or (s : Status) :
    s = Status.optimal ∨ s = Status.failedToConverge := by
  cases s
  · exact Or.inl rfl
  · exact Or.inr rfl

lemma active_level (mu a : ℚ) (hpos : 0 < max 0 (mu - a)) :
    a + max 0 (mu - a) = mu := by
  rcases le_or_lt (mu - a) 0 with hle | hlt
  · rw [max_eq_left hle] at hpos
    exact absurd hpos (lt_irrefl 0)
  · rw [max_eq_right hlt.le]
    ring

lemma inactive_level (mu a : ℚ) (hz : max 0 (mu - a) = 0) : mu ≤ a := by
  have h1 : mu - a ≤ max 0 (mu - a) := le_max_right 0 (mu - a)
  rw [hz] at h1
  linarith

lemma get_congr_of_eq {l l' : List ℚ} (h : l = l') (k : ℕ)
    (hk : k < l.length) (hk' : k < l'.length) :
    l.get ⟨k, hk⟩ = l'.get ⟨k, hk'⟩ := by
  subst h
  rfl

lemma waterAlloc_length (mu : ℚ) (alpha : List ℚ) :
    (waterAlloc mu alpha).length = alpha.length := by
  simp [waterAlloc]

lemma waterAlloc_get (mu : ℚ) (alpha : List ℚ) (k : ℕ) (hk : k < alpha.length)
    (hk2 : k < (waterAlloc mu alpha).length) :
    (waterAlloc mu alpha).get ⟨k, hk2⟩ = max 0 (mu - alpha.get ⟨k, hk⟩) := by
  simp [waterAlloc]

lemma objective_map_zero (alpha : List ℚ) :
    objective alpha (alpha.map (fun _ => 0)) =
      (alpha.map (fun a => Real.log (a : ℝ))).sum := by
  induction alpha with
  | nil => simp [objective]
  | cons a t ih =>
    unfold objective at ih ⊢
    simp only [List.map_cons, List.zip_cons_cons, List.sum_cons, ih]
    norm_num

/-- C1 (amended): for every valid input and non-negative tolerance, every
allocation returned by `solve` is entrywise non-negative, and whenever the
returned status is `optimal` the allocation sums to the budget `P` within the
tolerance.  (The original claim asserts the sum property unconditionally for
all valid inputs; that fails when the iteration cap is exhausted, see the
counterexample.) -/
theorem C1_invariant_amended (alpha : List ℚ) (P tol : ℚ) (it : ℕ) (r : Result)
    (hv : validInput alpha P) (htol : 0 ≤ tol)
    (h : solve alpha P tol it = Except.ok r) :
    (∀ x ∈ r.allocation, 0 ≤ x) ∧
      (r.status = Status.optimal → |r.allocation.sum - P| ≤ tol) := by
  constructor
  · rw [solve_ok_allocation h]
    exact waterAlloc_nonneg _ _
  · intro hopt
    exact solve_optimal_sum htol h hopt

/-- Witness for C1 at the concrete input `alpha = [1]`, `P = 2`. -/
theorem C1_invariant_amended_witness :
    validInput [1] 2 ∧ (0 : ℚ) ≤ defaultTolerance ∧
      ((∀ x ∈ (Result.mk Status.optimal 3 [2]).allocation, 0 ≤ x) ∧
        ((Result.mk Status.optimal 3 [2]).status = Status.optimal →
          |(Result.mk Status.optimal 3 [2]).allocation.sum - 2| ≤ defaultTolerance)) :=
  ⟨by norm_num [validInput], by norm_num [defaultTolerance],
    C1_invariant_amended [1] 2 defaultTolerance defaultMaxIterations
      (Result.mk Status.optimal 3 [2]) (by norm_num [validInput])
      (by norm_num [defaultTolerance])
      (by norm_num [solve, validInput, excess, waterAlloc, maxFloor, minFloor,
        ratAbs, mkResult, defaultTolerance, defaultMaxIterations, Result.mk.injEq])⟩

/-- C1 counterexample: at the valid input `alpha = [1, 10^24]` (written as a
plain numeral), `P = 1/5`,
with the spec's default tolerance and iteration cap, the solver exhausts the
iteration cap and the returned allocation sum misses the budget by more than
the tolerance, refuting the unconditional sum invariant of the claim. -/
theorem C1_counterexample :
    ¬ ∀ (alpha : List ℚ) (P : ℚ) (r : Result),
        validInput alpha P →
        solve alpha P defaultTolerance defaultMaxIterations = Except.ok r →
        (∀ x ∈ r.allocation, 0 ≤ x) ∧
          |r.allocation.sum - P| ≤ defaultTolerance := by
  intro hclaim
  have hrej : ¬ ([1, 1000000000000000000000000] = ([] : List ℚ) ∨
      (∃ a ∈ [(1 : ℚ), 1000000000000000000000000], a ≤ 0) ∨ (1 / 5 : ℚ) < 0) := by
    push_neg
    refine ⟨List.cons_ne_nil _ _, ?_, by norm_num⟩
    norm_num
  have hhi : maxFloor [(1 : ℚ), 1000000000000000000000000] + 1 / 5 =
      (5000000000000000000000001 / 5 : ℚ) := by
    norm_num [maxFloor]
  have hlo : minFloor [(1 : ℚ), 1000000000000000000000000] = 1 := by
    norm_num [minFloor]
  have hhi2 : ¬ ratAbs (excess [(1 : ℚ), 1000000000000000000000000] (1 / 5)
      (5000000000000000000000001 / 5)) ≤ defaultTolerance := by
    norm_num [excess, waterAlloc, ratAbs, defaultTolerance]
  have hsol : solve [1, 1000000000000000000000000] (1 / 5) defaultTolerance
      defaultMaxIterations =
      Except.ok (mkResult Status.failedToConverge [1, 1000000000000000000000000]
        (190147575028528675187087875319 / 158456325028528675187087900672)) := by
    rw [solve_eq_bisect hrej (by norm_num) hhi hlo hhi2,
      show defaultMaxIterations = 100 from rfl, c1_chain]
  have hvalid : validInput [1, 1000000000000000000000000] (1 / 5) := by
    unfold validInput
    refine ⟨List.cons_ne_nil _ _, ?_, by norm_num⟩
    norm_num
  have h2 := (hclaim _ _ _ hvalid hsol).2
  norm_num [mkResult, waterAlloc, defaultTolerance] at h2
  rw [abs_le] at h2
  norm_num at h2

/-- C2: inputs violating the preconditions (empty channel list, some floor
non-positive, or a negative budget) make `solve` fail synchronously with the
`InvalidInput` error, for every tolerance and iteration cap. -/
theorem C2_invalid_input (alpha : List ℚ) (P tol : ℚ) (it : ℕ)
    (h : alpha = [] ∨ (∃ a ∈ alpha, a ≤ 0) ∨ P < 0) :
    solve alpha P tol it = Except.error SolverError.invalidInput := by
  unfold solve
  rw [if_pos h]

/-- Witness for C2 at the concrete invalid input of an empty channel list. -/
theorem C2_invalid_input_witness :
    (([] : List ℚ) = [] ∨ (∃ a ∈ ([] : List ℚ), a ≤ 0) ∨ (1 : ℚ) < 0) ∧
      solve [] 1 defaultTolerance defaultMaxIterations =
        Except.error SolverError.invalidInput :=
  ⟨Or.inl rfl,
    C2_invalid_input [] 1 defaultTolerance defaultMaxIterations (Or.inl rfl)⟩

/-- C3: for every valid input, a returned result satisfies the water-level
(KKT) optimality conditions: there is a water level `mu` such that any two
channels with positive allocation sit at the same level
`alpha_i + x_i = alpha_j + x_j`, every channel with positive allocation has
`alpha_i + x_i = mu`, and every channel with zero allocation has its floor at
or above the water level, `alpha_i >= mu`. -/
theorem C3_water_level (alpha : List ℚ) (P tol : ℚ) (it : ℕ) (r : Result)
    (hv : validInput alpha P) (h : solve alpha P tol it = Except.ok r) :
    ∃ mu : ℚ,
      (∀ i j (hi : i < alpha.length) (hj : j < alpha.length)
          (hi2 : i < r.allocation.length) (hj2 : j < r.allocation.length),
          0 < r.allocation.get ⟨i, hi2⟩ → 0 < r.allocation.get ⟨j, hj2⟩ →
          alpha.get ⟨i, hi⟩ + r.allocation.get ⟨i, hi2⟩ =
            alpha.get ⟨j, hj⟩ + r.allocation.get ⟨j, hj2⟩) ∧
      (∀ i (hi : i < alpha.length) (hi2 : i < r.allocation.length),
          (0 < r.allocation.get ⟨i, hi2⟩ →
            alpha.get ⟨i, hi⟩ + r.allocation.get ⟨i, hi2⟩ = mu) ∧
          (r.allocation.get ⟨i, hi2⟩ = 0 → mu ≤ alpha.get ⟨i, hi⟩)) := by
  have key : ∀ k (hk : k < alpha.length) (hk2 : k < r.allocation.length),
      r.allocation.get ⟨k, hk2⟩ = max 0 (r.waterLevel - alpha.get ⟨k, hk⟩) := by
    intro k hk hk2
    have hra := solve_ok_allocation h
    have hk3 : k < (waterAlloc r.waterLevel alpha).length := by
      rw [← hra]
      exact hk2
    rw [get_congr_of_eq hra k hk2 hk3]
    exact waterAlloc_get _ _ _ hk hk3
  refine ⟨r.waterLevel, ?_, ?_⟩
  · intro i j hi hj hi2 hj2 hpi hpj
    rw [key i hi hi2] at hpi ⊢
    rw [key j hj hj2] at hpj ⊢
    rw [active_level _ _ hpi, active_level _ _ hpj]
  · intro i hi hi2
    constructor
    · intro hpi
      rw [key i hi hi2] at hpi ⊢
      exact active_level _ _ hpi
    · intro hz
      rw [key i hi hi2] at hz
      exact inactive_level _ _ hz

/-- Witness for C3 at the concrete input `alpha = [1]`, `P = 2`. -/
theorem C3_water_level_witness :
    validInput [1] 2 ∧
      (∃ mu : ℚ,
        (∀ i j (hi : i < ([1] : List ℚ).length) (hj : j < ([1] : List ℚ).length)
            (hi2 : i < (Result.mk Status.optimal 3 [2]).allocation.length)
            (hj2 : j < (Result.mk Status.optimal 3 [2]).allocation.length),
            0 < (Result.mk Status.optimal 3 [2]).allocation.get ⟨i, hi2⟩ →
            0 < (Result.mk Status.optimal 3 [2]).allocation.get ⟨j, hj2⟩ →
            ([1] : List ℚ).get ⟨i, hi⟩ +
                (Result.mk Status.optimal 3 [2]).allocation.get ⟨i, hi2⟩ =
              ([1] : List ℚ).get ⟨j, hj⟩ +
                (Result.mk Status.optimal 3 [2]).allocation.get ⟨j, hj2⟩) ∧
        (∀ i (hi : i < ([1] : List ℚ).length)
            (hi2 : i < (Result.mk Status.optimal 3 [2]).allocation.length),
            (0 < (Result.mk Status.optimal 3 [2]).allocation.get ⟨i, hi2⟩ →
              ([1] : List ℚ).get ⟨i, hi⟩ +
                (Result.mk Status.optimal 3 [2]).allocation.get ⟨i, hi2⟩ = mu) ∧
            ((Result.mk Status.optimal 3 [2]).allocation.get ⟨i, hi2⟩ = 0 →
              mu ≤ ([1] : List ℚ).get ⟨i, hi⟩))) :=
  ⟨by norm_num [validInput],
    C3_water_level [1] 2 defaultTolerance defaultMaxIterations
      (Result.mk Status.optimal 3 [2]) (by norm_num [validInput])
      (by norm_num [solve, validInput, excess, waterAlloc, maxFloor, minFloor,
        ratAbs, mkResult, defaultTolerance, defaultMaxIterations, Result.mk.injEq])⟩

/-- C4: for every valid channel list and budget `P = 0`, `solve` returns
status `optimal`, the all-zero allocation, and the achieved objective equals
`sum_i log(alpha_i)`. -/
theorem C4_zero_budget (alpha : List ℚ) (tol : ℚ) (it : ℕ)
    (hv : validInput alpha 0) :
    ∃ r, solve alpha 0 tol it = Except.ok r ∧ r.status = Status.optimal ∧
      r.allocation = alpha.map (fun _ => 0) ∧
      objective alpha r.allocation =
        (alpha.map (fun a => Real.log (a : ℝ))).sum := by
  refine ⟨mkResult Status.optimal alpha (minFloor alpha), ?_, rfl, ?_, ?_⟩
  · unfold solve
    rw [if_neg (validInput_not_rejected hv), if_pos rfl]
  · exact waterAlloc_minFloor alpha
  · show objective alpha (waterAlloc (minFloor alpha) alpha) = _
    rw [waterAlloc_minFloor]
    exact objective_map_zero alpha

/-- Witness for C4 at the concrete input `alpha = [2]`, `P = 0`. -/
theorem C4_zero_budget_witness :
    validInput [2] 0 ∧
      (∃ r, solve [2] 0 defaultTolerance defaultMaxIterations = Except.ok r ∧
        r.status = Status.optimal ∧
        r.allocation = ([2] : List ℚ).map (fun _ => 0) ∧
        objective [2] r.allocation =
          (([2] : List ℚ).map (fun a => Real.log (a : ℝ))).sum) :=
  ⟨by norm_num [validInput],
    C4_zero_budget [2] defaultTolerance defaultMaxIterations
      (by norm_num [validInput])⟩

/-- C5: for every well-formed input, `solve` succeeds (no failure mode other
than the `InvalidInput` rejection of malformed inputs exists) and the
returned status is one of exactly the two values `optimal` and
`failed_to_converge`. -/
theorem C5_status_values (alpha : List ℚ) (P tol : ℚ) (it : ℕ)
    (hv : validInput alpha P) :
    ∃ r, solve alpha P tol it = Except.ok r ∧
      (r.status = Status.optimal ∨ r.status = Status.failedToConverge) := by
  rcases solve_valid_ok tol it hv with ⟨r, hr⟩
  exact ⟨r, hr, status_eq_or r.status⟩

/-- Witness for C5 at the concrete input `alpha = [1]`, `P = 2`. -/
theorem C5_status_values_witness :
    validInput [1] 2 ∧
      (∃ r, solve [1] 2 defaultTolerance defaultMaxIterations = Except.ok r ∧
        (r.status = Status.optimal ∨ r.status = Status.failedToConverge)) :=
  ⟨by norm_num [validInput],
    C5_status_values [1] 2 defaultTolerance defaultMaxIterations
      (by norm_num [validInput])⟩

/-- C6: `solve` is deterministic and stateless: it is a pure function of the
channel floors, the budget, the tolerance and the iteration cap, so two calls
with equal inputs return equal outputs. -/
theorem C6_deterministic (a₁ a₂ : List ℚ) (P₁ P₂ tol₁ tol₂ : ℚ) (it₁ it₂ : ℕ)
    (ha : a₁ = a₂) (hP : P₁ = P₂) (ht : tol₁ = tol₂) (hit : it₁ = it₂) :
    solve a₁ P₁ tol₁ it₁ = solve a₂ P₂ tol₂ it₂ := by
  rw [ha, hP, ht, hit]

/-- Witness for C6 at the concrete input `alpha = [1]`, `P = 1`. -/
theorem C6_deterministic_witness :
    ([1] : List ℚ) = [1] ∧ (1 : ℚ) = 1 ∧ defaultTolerance = defaultTolerance ∧
      defaultMaxIterations = defaultMaxIterations ∧
      solve [1] 1 defaultTolerance defaultMaxIterations =
        solve [1] 1 defaultTolerance defaultMaxIterations :=
  ⟨rfl, rfl, rfl, rfl,
    C6_deterministic [1] [1] 1 1 defaultTolerance defaultTolerance
      defaultMaxIterations defaultMaxIterations rfl rfl rfl rfl⟩

/-- C8: for a single channel (`n = 1`) with any positive floor `a`,
non-negative budget `P` and non-negative tolerance, `solve` returns status
`optimal` with allocation exactly `[P]`. -/
theorem C8_single_channel (a P tol : ℚ) (it : ℕ)
    (ha : 0 < a) (hP : 0 ≤ P) (htol : 0 ≤ tol) :
    ∃ r, solve [a] P tol it = Except.ok r ∧ r.status = Status.optimal ∧
      r.allocation = [P] := by
  have hv : validInput [a] P := ⟨by simp, by simpa using ha, hP⟩
  by_cases hP0 : P = 0
  · subst hP0
    refine ⟨mkResult Status.optimal [a] (minFloor [a]), ?_, rfl, ?_⟩
    · unfold solve
      rw [if_neg (validInput_not_rejected hv), if_pos rfl]
    · show waterAlloc (minFloor [a]) [a] = [0]
      rw [waterAlloc_minFloor]
      rfl
  · have hwa : waterAlloc (a + P) [a] = [P] := by
      simp [waterAlloc, max_eq_right hP]
    have hex0 : excess [a] P (maxFloor [a] + P) = 0 := by
      show excess [a] P (a + P) = 0
      unfold excess
      rw [hwa]
      simp
    have hcond : ratAbs (excess [a] P (maxFloor [a] + P)) ≤ tol := by
      rw [hex0]
      simpa [ratAbs] using htol
    refine ⟨mkResult Status.optimal [a] (maxFloor [a] + P), ?_, rfl, ?_⟩
    · unfold solve
      rw [if_neg (validInput_not_rejected hv), if_neg hP0, if_pos hcond]
    · show waterAlloc (maxFloor [a] + P) [a] = [P]
      exact hwa

/-- Witness for C8 at the concrete input `alpha = [1]`, `P = 2`. -/
theorem C8_single_channel_witness :
    (0 : ℚ) < 1 ∧ (0 : ℚ) ≤ 2 ∧ (0 : ℚ) ≤ defaultTolerance ∧
      (∃ r, solve [1] 2 defaultTolerance defaultMaxIterations = Except.ok r ∧
        r.status = Status.optimal ∧ r.allocation = [2]) :=
  ⟨by norm_num, by norm_num, by norm_num [defaultTolerance],
    C8_single_channel 1 2 defaultTolerance defaultMaxIterations
      (by norm_num) (by norm_num) (by norm_num [defaultTolerance])⟩

/-- C9: the notebook's `water_filling` defaults the budget parameter `sum_x`
to `1`: the call without an explicit budget equals the call with budget `1`,
and any allocation it returns sums to `1` within the default tolerance. -/
theorem C9_default_budget (n : ℕ) (a : List ℚ) :
    water_filling_default n a = water_filling n a 1 ∧
      ∀ xs, (water_filling_default n a).2 = some xs →
        |xs.sum - 1| ≤ defaultTolerance := by
  refine ⟨rfl, ?_⟩
  intro xs hxs
  have hd : (0 : ℚ) ≤ defaultTolerance := by norm_num [defaultTolerance]
  unfold water_filling_default water_filling at hxs
  rcases hsol : solve a 1 defaultTolerance defaultMaxIterations with err | r
  · rw [hsol] at hxs
    simp at hxs
  · rw [hsol] at hxs
    by_cases hopt : r.status = Status.optimal
    · simp only [hopt, if_pos rfl] at hxs
      have hx : r.allocation = xs := by
        simpa using hxs
      rw [← hx]
      exact solve_optimal_sum hd hsol hopt
    · simp only [if_neg hopt] at hxs
      simp at hxs

/-- Witness for C9 at the concrete input `n = 1`, `a = [1]`. -/
theorem C9_default_budget_witness :
    (water_filling_default 1 [1]).2 = some [1] ∧
      |([1] : List ℚ).sum - 1| ≤ defaultTolerance :=
  ⟨by norm_num [water_filling_default, water_filling, solve, validInput,
        excess, waterAlloc, maxFloor, minFloor, ratAbs, mkResult,
        defaultTolerance, defaultMaxIterations],
    (C9_default_budget 1 [1]).2 [1]
      (by norm_num [water_filling_default, water_filling, solve, validInput,
        excess, waterAlloc, maxFloor, minFloor, ratAbs, mkResult,
        defaultTolerance, defaultMaxIterations])⟩

/-- C7: at the reference input `alpha = [0.8, 1.0, 1.2]` (as exact rationals
`[4/5, 1, 6/5]`) and `P = 1`, `solve` returns status `optimal`, an allocation
within `0.001` of `[0.533, 0.333, 0.133]` entrywise, and an achieved
objective within `0.001` of `0.863`. -/
theorem C7_reference_example :
    ∃ r x₁ x₂ x₃,
      solve [4/5, 1, 6/5] 1 defaultTolerance defaultMaxIterations =
        Except.ok r ∧
      r.status = Status.optimal ∧
      r.allocation = [x₁, x₂, x₃] ∧
      |x₁ - 533/1000| ≤ 1/1000 ∧ |x₂ - 333/1000| ≤ 1/1000 ∧
      |x₃ - 133/1000| ≤ 1/1000 ∧
      |objective [4/5, 1, 6/5] r.allocation - 863/1000| ≤ 1/1000 := by
  have hrej : ¬ ([4/5, 1, 6/5] = ([] : List ℚ) ∨
      (∃ a ∈ [(4/5 : ℚ), 1, 6/5], a ≤ 0) ∨ (1 : ℚ) < 0) := by
    push_neg
    refine ⟨List.cons_ne_nil _ _, ?_, by norm_num⟩
    norm_num
  have hhi : maxFloor [(4/5 : ℚ), 1, 6/5] + 1 = (11/5 : ℚ) := by
    norm_num [maxFloor]
  have hlo : minFloor [(4/5 : ℚ), 1, 6/5] = 4/5 := by
    norm_num [minFloor]
  have hhi2 : ¬ ratAbs (excess [(4/5 : ℚ), 1, 6/5] 1 (11/5)) ≤
      defaultTolerance := by
    norm_num [excess, waterAlloc, ratAbs, defaultTolerance]
  have hsol : solve [4/5, 1, 6/5] 1 defaultTolerance defaultMaxIterations =
      Except.ok (mkResult Status.optimal [4/5, 1, 6/5]
        (57266230613/42949672960)) := by
    rw [solve_eq_bisect hrej (by norm_num) hhi hlo hhi2,
      show defaultMaxIterations = 100 from rfl, c7_chain]
  have halloc : waterAlloc (57266230613/42949672960) [4/5, 1, 6/5] =
      [4581298449/8589934592, 14316557653/42949672960,
        5726623061/42949672960] := by
    norm_num [waterAlloc]
  have hobj : objective [4/5, 1, 6/5]
      [4581298449/8589934592, 14316557653/42949672960,
        5726623061/42949672960] =
      3 * Real.log ((57266230613 : ℝ) / 42949672960) := by
    unfold objective
    simp only [List.zip_cons_cons, List.zip_nil_right, List.map_cons,
      List.map_nil, List.sum_cons, List.sum_nil]
    norm_num
    ring
  have hlog_hi : Real.log ((57266230613 : ℝ) / 42949672960) ≤ 2879/10000 := by
    rw [Real.log_le_iff_le_exp (by norm_num)]
    refine le_trans ?_ (Real.sum_le_exp_of_nonneg (by norm_num) 5)
    simp [Finset.sum_range_succ]
    norm_num [Nat.factorial]
  have hlog_lo : (2874/10000 : ℝ) ≤
      Real.log ((57266230613 : ℝ) / 42949672960) := by
    rw [Real.le_log_iff_exp_le (by norm_num)]
    refine le_trans
      (@Real.exp_bound' (2874/10000 : ℝ) (by norm_num) (by norm_num) 4
        (by norm_num)) ?_
    simp [Finset.sum_range_succ]
    norm_num [Nat.factorial]
  refine ⟨mkResult Status.optimal [4/5, 1, 6/5] (57266230613/42949672960),
    4581298449/8589934592, 14316557653/42949672960, 5726623061/42949672960,
    hsol, rfl, ?_, ?_, ?_, ?_, ?_⟩
  · show waterAlloc (57266230613/42949672960) [4/5, 1, 6/5] = _
    exact halloc
  · rw [abs_le]
    constructor <;> norm_num
  · rw [abs_le]
    constructor <;> norm_num
  · rw [abs_le]
    constructor <;> norm_num
  · show |objective [4/5, 1, 6/5]
      (waterAlloc (57266230613/42949672960) [4/5, 1, 6/5]) - 863/1000| ≤
        1/1000
    rw [halloc, hobj, abs_le]
    constructor <;> linarith

/-- C10: the notebook's `water_filling` return branch: whenever the solver
status is not the string `optimal`, the raw status is returned together with
NaN (modelled as `none`) for the objective value and NaN in place of the
allocation, discarding any partial allocation. -/
theorem C10_non_optimal_nan {A B : Type} (status : String) (value : A) (x : B)
    (h : status ≠ "optimal") :
    waterFillingReturn status value x = (status, none, none) := by
  unfold waterFillingReturn
  rw [if_neg h]

/-- Witness for C10 at the concrete status `infeasible`. -/
theorem C10_non_optimal_nan_witness :
    "infeasible" ≠ "optimal" ∧
      waterFillingReturn "infeasible" (0 : ℚ) ([] : List ℚ) =
        ("infeasible", none, none) :=
  ⟨by decide,
    C10_non_optimal_nan "infeasible" (0 : ℚ) ([] : List ℚ) (by decide)⟩

end WaterFilling
